import Mathlib

/-!
# SkyHarbour simulation core — verification development

Shallow embedding of the tick-based airport simulation (the `useGameEngine`
hook, its scheduler `generateSchedule`, the aircraft physics/state machine
`updatePlanePhysics`, the gate/runway resource helpers, the economy
mutators `purchaseUpgrade` / `influenceEconomy`, and the calendar
seasonality formula), together with proofs of the specified properties.

Modelling conventions:
* JavaScript numbers are embedded as `ℚ` (positions, speeds, economy
  counters) or `ℤ` (tick times, timers); the only transcendental value,
  the seasonality multiplier built from `Math.sin`, lives in `ℝ`.
* `Math.random()` is embedded as an oracle `ℕ → ℚ` consumed at exactly the
  call sites of the source, with an explicit cursor.
* The floating-point movement kernel `moveTowards` (square root and
  trigonometry) is abstracted as a parameter `MoveFn`; every theorem below
  holds for an arbitrary movement outcome, constrained only by the one
  property of the source that matters: at speed 0 the target is never
  reached (`distance < 0` is false).
* `uuid` identifiers become natural numbers; log strings keep a fixed text.
-/

namespace SkyHarbour

/-- Aircraft category (`'regional' | 'narrowbody' | 'widebody'`). -/
inductive PlaneType
  | regional
  | narrowbody
  | widebody
deriving DecidableEq

/-- `PlaneStatus` enum from the types module. -/
inductive PlaneStatus
  | APPROACH
  | LANDING
  | TAXI_IN
  | WAITING_FOR_GATE
  | PARKED
  | TAXI_OUT
  | HOLD_SHORT
  | TAKEOFF
  | DEPARTED
  | GO_AROUND
  | DIVERTED
deriving DecidableEq

/-- Status of a `ScheduledFlight` (`'Scheduled' | 'On Time' | ...`). -/
inductive FlightStatus
  | Scheduled
  | OnTime
  | Delayed
  | Landed
  | Departed
  | Cancelled
  | Diverted
deriving DecidableEq

/-- `Position` : `{x, y, heading}`. -/
structure Position where
  x : ℚ
  y : ℚ
  heading : ℚ
deriving DecidableEq

/-- `ScheduledFlight` record (string ids become numbers). -/
structure ScheduledFlight where
  id : ℕ
  airline : ℤ
  flightNumber : ℤ
  type : PlaneType
  scheduledTime : ℤ
  isArrival : Bool
  status : FlightStatus
deriving DecidableEq

/-- `Plane` record. -/
structure Plane where
  id : ℕ
  airline : ℤ
  flightNumber : ℤ
  type : PlaneType
  status : PlaneStatus
  position : Position
  waypoints : List Position
  targetGateId : Option String
  passengers : ℤ
  revenue : ℚ
  fuel : ℚ
  timer : ℤ
  history : List String
deriving DecidableEq

/-- `Economy` counters. -/
structure Economy where
  balance : ℚ
  tourismScore : ℚ
  industryScore : ℚ
  demand : ℚ
  reputation : ℚ
deriving DecidableEq

/-- The one-time effect closures stored on `INITIAL_UPGRADES` in
`constants.ts`, rendered as a tagged variant: the `ils_cat2` and
`terminal_exp_1` effects are empty, `radar_system` adds 25 demand and
`marketing_campaign` adds 20 tourism. -/
inductive UpgradeEffect
  | noEffect
  | addDemand (n : ℚ)
  | addTourism (n : ℚ)
deriving DecidableEq

/-- `TechUpgrade` record (name/description text dropped). -/
structure TechUpgrade where
  id : String
  cost : ℚ
  unlocked : Bool
  effect : UpgradeEffect
deriving DecidableEq

/-- Map node (`MAP_NODES` entry); the `type` tag is kept as a string. -/
structure Node where
  id : String
  x : ℚ
  y : ℚ
  ntype : String
deriving DecidableEq

/-- The gate-occupancy record `Record<string, string | null>`: an
association list, newest binding first; an absent key and a `null` value
are both read as a free gate (both are falsy in `!occupancy[g]`). -/
abbrev GateOccupancy := List (String × ℕ)

/-- Read `occupancy[g]`. -/
def occGet (occupancy : GateOccupancy) (g : String) : Option ℕ :=
  (occupancy.find? (fun e => e.1 = g)).map (fun e => e.2)

/-- Write `occupancy[g] = pid`. -/
def occSet (occupancy : GateOccupancy) (g : String) (pid : ℕ) : GateOccupancy :=
  (g, pid) :: occupancy

/-- The aggregate game state (`GameState`), trimmed to the fields the
simulation core reads or writes; the purely cosmetic fields (`paused`,
`gameSpeed`, `weather`, wind, selection, `aiEnabled`) are omitted. -/
structure GameState where
  gameTime : ℤ
  schedule : List ScheduledFlight
  planes : List Plane
  economy : Economy
  upgrades : List TechUpgrade
  logs : List String
  gateOccupancy : GateOccupancy
deriving DecidableEq

/-! ## Constants (`constants.ts`, `useGameEngine.ts`) -/

/-- `GATE_PARK_DURATION = 300` ticks. -/
def GATE_PARK_DURATION : ℤ := 300

/-- `SPEED_FACTOR = 4`. -/
def SPEED_FACTOR : ℚ := 4

/-- `MAP_NODES`. -/
def MAP_NODES : List Node :=
  [ ⟨"rw_start_09", 500, 750, "runway_start"⟩,
    ⟨"rw_end_27", 1700, 750, "runway_end"⟩,
    ⟨"taxi_alpha_1", 500, 850, "hold_short"⟩,
    ⟨"taxi_exit_highspeed", 1300, 750, "taxi_intersect"⟩,
    ⟨"taxi_alpha_main", 1300, 850, "taxi_intersect"⟩,
    ⟨"gate_1", 800, 950, "gate"⟩,
    ⟨"gate_2", 1000, 950, "gate"⟩,
    ⟨"gate_3", 1200, 950, "gate"⟩,
    ⟨"gate_4", 1400, 950, "gate"⟩ ]

/-- `INITIAL_UPGRADES`. -/
def INITIAL_UPGRADES : List TechUpgrade :=
  [ ⟨"ils_cat2", 150000, false, UpgradeEffect.noEffect⟩,
    ⟨"terminal_exp_1", 1250000, false, UpgradeEffect.noEffect⟩,
    ⟨"radar_system", 450000, false, UpgradeEffect.addDemand 25⟩,
    ⟨"marketing_campaign", 250000, false, UpgradeEffect.addTourism 20⟩ ]

/-- `INITIAL_ECONOMY`. -/
def INITIAL_ECONOMY : Economy :=
  { balance := 200000, tourismScore := 20, industryScore := 30,
    demand := 40, reputation := 80 }

/-! ## Resource manager helpers -/

/-- `upgrades.some(u => u.id === 'terminal_exp_1' && u.unlocked)`. -/
def hasTerminalExp (upgrades : List TechUpgrade) : Bool :=
  upgrades.any (fun u => u.id = "terminal_exp_1" ∧ u.unlocked = true)

/-- `getFreeGate`: first gate of `gate_1..gate_3` (plus `gate_4` once the
terminal expansion is unlocked) whose occupancy entry is free. -/
def getFreeGate (occupancy : GateOccupancy) (upgrades : List TechUpgrade) :
    Option String :=
  (if hasTerminalExp upgrades then ["gate_1", "gate_2", "gate_3", "gate_4"]
   else ["gate_1", "gate_2", "gate_3"]).find?
    (fun g => (occGet occupancy g).isNone)

/-- `isRunwayOccupied`: some plane other than `exceptId` has status
`TAKEOFF`/`LANDING` or sits inside the runway bounding box. -/
def isRunwayOccupied (planes : List Plane) (exceptId : Option ℕ) : Bool :=
  planes.any fun p =>
    if exceptId = some p.id then false
    else if p.status = PlaneStatus.TAKEOFF ∨ p.status = PlaneStatus.LANDING then true
    else if p.position.y > 740 ∧ p.position.y < 760 ∧
            p.position.x > 450 ∧ p.position.x < 1800 then true
    else false

/-- Step-4 occupancy snapshot rebuild: all keys cleared, then every plane
with a target gate and status `TAXI_IN`/`PARKED`/`WAITING_FOR_GATE` claims
its gate.  A cleared key reads as free, so the cleared record is the empty
association list. -/
def rebuildStep (occ : GateOccupancy) (p : Plane) : GateOccupancy :=
  match p.targetGateId with
  | some g =>
      if p.status = PlaneStatus.TAXI_IN ∨ p.status = PlaneStatus.PARKED ∨
         p.status = PlaneStatus.WAITING_FOR_GATE
      then occSet occ g p.id
      else occ
  | none => occ

def rebuildOccupancy (planes : List Plane) : GateOccupancy :=
  planes.foldl rebuildStep []

/-! ## Aircraft state machine (`updatePlanePhysics`)

The source mutates a copy `updated` of the plane and a local `speed`
variable through a sequence of blocks; the embedding threads
`Plane × ℚ` through one definition per block, in source order. -/

/-- The movement kernel `moveTowards(plane, tx, ty, speed)`: floating-point
square root and trigonometry, abstracted as a parameter.  Arguments:
current position, target x, target y, speed; result: new position and the
`reached` flag. -/
abbrev MoveFn := Position → ℚ → ℚ → ℚ → Position × Bool

/-- `let speed = plane.type === 'regional' ? 3 : ... ? 2.5 : 2`. -/
def baseSpeed (t : PlaneType) : ℚ :=
  match t with
  | PlaneType.regional => 3
  | PlaneType.narrowbody => 5 / 2
  | PlaneType.widebody => 2

/-- `APPROACH` block: inside the final-approach window with the runway
occupied, divert to the fixed go-around loop. -/
def approachStage (allPlanes : List Plane) (u : Plane) : Plane :=
  if u.status = PlaneStatus.APPROACH then
    let distanceToRunway := |u.position.x - 500|
    if distanceToRunway < 300 ∧ distanceToRunway > 100 then
      if isRunwayOccupied allPlanes (some u.id) then
        { u with
          status := PlaneStatus.GO_AROUND,
          waypoints := [⟨500, 500, -45⟩, ⟨-500, 750, 90⟩, ⟨500, 750, 90⟩,
                        ⟨1500, 750, 90⟩],
          history := u.history ++ ["Go Around: Runway Busy"] }
      else u
    else u
  else u

/-- `HOLD_SHORT` block: zero speed; release to `TAKEOFF` only when the
runway is clear and no plane on `APPROACH` has `x > -200`. -/
def holdShortStage (allPlanes : List Plane) (u : Plane × ℚ) : Plane × ℚ :=
  if u.1.status = PlaneStatus.HOLD_SHORT then
    let speed : ℚ := 0
    if isRunwayOccupied allPlanes (some u.1.id) = false then
      let incoming := allPlanes.any fun p =>
        p.status = PlaneStatus.APPROACH ∧ p.position.x > -200
      if incoming = false then
        ({ u.1 with
           status := PlaneStatus.TAKEOFF,
           waypoints := [⟨3000, 750, 90⟩],
           history := u.1.history ++ ["Cleared for Takeoff"] }, speed)
      else (u.1, speed)
    else (u.1, speed)
  else u

/-- `WAITING_FOR_GATE` block: zero speed; when a gate frees, claim it,
switch to `TAXI_IN` and build the two waypoints to the gate node. -/
def waitingGateStage (occupancy : GateOccupancy) (upgrades : List TechUpgrade)
    (u : Plane × ℚ) : Plane × ℚ :=
  if u.1.status = PlaneStatus.WAITING_FOR_GATE then
    let speed : ℚ := 0
    match getFreeGate occupancy upgrades with
    | some freeGate =>
        let p := { u.1 with
                   targetGateId := some freeGate,
                   status := PlaneStatus.TAXI_IN }
        match MAP_NODES.find? (fun n => n.id = freeGate) with
        | some gateNode =>
            ({ p with waypoints := [⟨gateNode.x, 850, 180⟩,
                                    ⟨gateNode.x, gateNode.y, 180⟩] }, speed)
        | none => (p, speed)
    | none => (u.1, speed)
  else u

/-- Speed multipliers (taxi half, parked/waiting zero, takeoff ×3,
landing ×2.5) followed by `moveSpeed = speed * SPEED_FACTOR`. -/
def speedAdjust (u : Plane × ℚ) : Plane × ℚ :=
  let s1 := if u.1.status = PlaneStatus.TAXI_IN ∨ u.1.status = PlaneStatus.TAXI_OUT
            then u.2 * (1 / 2) else u.2
  let s2 := if u.1.status = PlaneStatus.PARKED ∨
               u.1.status = PlaneStatus.WAITING_FOR_GATE
            then 0 else s1
  let s3 := if u.1.status = PlaneStatus.TAKEOFF then s2 * 3 else s2
  let s4 := if u.1.status = PlaneStatus.LANDING then s3 * (5 / 2) else s3
  (u.1, s4 * SPEED_FACTOR)

/-- Movement block: advance toward the head waypoint, popping it when
reached. -/
def moveStage (mv : MoveFn) (u : Plane × ℚ) : Plane :=
  match u.1.waypoints with
  | [] => u.1
  | target :: rest =>
      let r := mv u.1.position target.x target.y u.2
      let p := { u.1 with position := r.1 }
      if r.2 then { p with waypoints := rest } else p

/-- The `switch (updated.status)` transition table, evaluated when the
waypoint queue has emptied. -/
def transitionStage (occupancy : GateOccupancy) (upgrades : List TechUpgrade)
    (u : Plane) : Plane :=
  match u.status with
  | PlaneStatus.APPROACH =>
      { u with status := PlaneStatus.LANDING, waypoints := [⟨1300, 750, 90⟩] }
  | PlaneStatus.LANDING =>
      { u with status := PlaneStatus.TAXI_IN, waypoints := [⟨1300, 850, 180⟩] }
  | PlaneStatus.TAXI_IN =>
      match u.targetGateId with
      | some _ =>
          if u.position.y > 900 then
            { u with status := PlaneStatus.PARKED, timer := GATE_PARK_DURATION }
          else u
      | none =>
          match getFreeGate occupancy upgrades with
          | some freeGate =>
              -- the source reads the node with a non-null assertion;
              -- every gate id is present in MAP_NODES
              match MAP_NODES.find? (fun n => n.id = freeGate) with
              | some gateNode =>
                  { u with
                    targetGateId := some freeGate,
                    waypoints := [⟨gateNode.x, 850, 180⟩,
                                  ⟨gateNode.x, gateNode.y, 180⟩] }
              | none => { u with targetGateId := some freeGate }
          | none =>
              { u with
                status := PlaneStatus.WAITING_FOR_GATE,
                history := u.history ++ ["Waiting for Gate"] }
  | PlaneStatus.PARKED =>
      if u.timer > 0 then { u with timer := u.timer - 1 }
      else
        { u with
          status := PlaneStatus.TAXI_OUT,
          targetGateId := none,
          waypoints := [⟨u.position.x, 850, 0⟩, ⟨500, 850, 0⟩, ⟨500, 800, 0⟩] }
  | PlaneStatus.TAXI_OUT =>
      { u with status := PlaneStatus.HOLD_SHORT, timer := 20 }
  | PlaneStatus.TAKEOFF => { u with status := PlaneStatus.DEPARTED }
  | PlaneStatus.GO_AROUND => { u with status := PlaneStatus.APPROACH }
  | _ => u

/-- `updatePlanePhysics(plane, allPlanes, currentOccupancy)`. -/
def updatePlanePhysics (mv : MoveFn) (upgrades : List TechUpgrade)
    (plane : Plane) (allPlanes : List Plane)
    (currentOccupancy : GateOccupancy) : Plane :=
  let u1 := approachStage allPlanes plane
  let u2 := holdShortStage allPlanes (u1, baseSpeed plane.type)
  let u3 := waitingGateStage currentOccupancy upgrades u2
  let u4 := moveStage mv (speedAdjust u3)
  if u4.waypoints = [] then transitionStage currentOccupancy upgrades u4
  else u4

/-! ## Simulation driver: spawning (tick steps 2–3) -/

/-- `createPlane(flight)`; `r1`, `r2` are the two `Math.random()` draws for
passengers and revenue. -/
def createPlane (flight : ScheduledFlight) (r1 r2 : ℚ) : Plane :=
  { id := flight.id,
    airline := flight.airline,
    flightNumber := flight.flightNumber,
    type := flight.type,
    status := PlaneStatus.APPROACH,
    position := ⟨-600, 750, 90⟩,
    waypoints := [⟨500, 750, 90⟩],
    targetGateId := none,
    passengers := ⌊r1 * 150⌋ + 50,
    revenue := (⌊r2 * 2000⌋ : ℤ) + 500,
    fuel := 100,
    timer := 0,
    history := [] }

/-- The congestion diversion penalty applied to the economy
(`reputation -= 2; balance -= 500`). -/
def divertFlight (econ : Economy) : Economy :=
  { econ with reputation := econ.reputation - 2, balance := econ.balance - 500 }

/-- The `flightsToSpawn.forEach(...)` loop: per due flight, either the
diversion penalty or one new plane, plus a log entry (newest first, capped
at 50).  The flights are paired with their index so the per-plane
randomness oracle can be consumed per flight. -/
def spawnFold (congested : Bool) (rnd : ℕ → ℚ × ℚ) :
    List (ℕ × ScheduledFlight) → List Plane × Economy × List String →
    List Plane × Economy × List String
  | [], acc => acc
  | (i, flight) :: rest, (ps, econ, logs) =>
      if congested then
        spawnFold congested rnd rest
          (ps, divertFlight econ,
           ("Flight diverted (Congestion)." :: logs).take 50)
      else
        spawnFold congested rnd rest
          (ps ++ [createPlane flight (rnd i).1 (rnd i).2], econ,
           ("on approach." :: logs).take 50)

/-- Result of the spawn step. -/
structure SpawnOut where
  schedule : List ScheduledFlight
  newPlanes : List Plane
  economy : Economy
  logs : List String
deriving DecidableEq

/-- Tick steps 2–3: select due `Scheduled` flights, snapshot the
waiting-for-gate and hold-short counts, and process every due flight under
the congestion decision.  The source mutates the shared flight objects in
place inside `forEach`; the `schedule.map` below reproduces that effect —
the decision is uniform across the loop because both counts are computed
before it. -/
def processSpawns (gameTime : ℤ) (planes : List Plane)
    (schedule : List ScheduledFlight) (econ : Economy) (logs : List String)
    (rnd : ℕ → ℚ × ℚ) : SpawnOut :=
  let flightsToSpawn := schedule.filter fun s =>
    s.status = FlightStatus.Scheduled ∧ s.scheduledTime ≤ gameTime
  let waitingPlanes :=
    (planes.filter fun p => p.status = PlaneStatus.WAITING_FOR_GATE).length
  let runwayBacklog :=
    (planes.filter fun p => p.status = PlaneStatus.HOLD_SHORT).length
  let congested : Bool := decide (waitingPlanes > 2 ∨ runwayBacklog > 3)
  let folded := spawnFold congested rnd flightsToSpawn.enum ([], econ, logs)
  let schedule2 := schedule.map fun s =>
    if s.status = FlightStatus.Scheduled ∧ s.scheduledTime ≤ gameTime then
      { s with status := if congested then FlightStatus.Diverted
                         else FlightStatus.OnTime }
    else s
  ⟨schedule2, folded.1, folded.2.1, folded.2.2⟩

/-! ## Simulation driver: physics pass (tick steps 4–5) -/

/-- Accumulator of the per-tick `allPlanes.map(...)` closure: processed
planes, the mutable occupancy record, and the economy/schedule/log
mutations of the revenue and go-around events. -/
structure TickAcc where
  planes : List Plane
  occupancy : GateOccupancy
  economy : Economy
  schedule : List ScheduledFlight
  logs : List String
deriving DecidableEq

/-- `schedule.find(s => s.id === p.id)` followed by an in-place status
write: mark the first matching entry `Departed`. -/
def markDepartedFirst : List ScheduledFlight → ℕ → List ScheduledFlight
  | [], _ => []
  | s :: rest, pid =>
      if s.id = pid then { s with status := FlightStatus.Departed } :: rest
      else s :: markDepartedFirst rest pid

/-- One iteration of the per-tick plane map: run the physics update, record
a mid-tick gate claim immediately, then apply the revenue and go-around
events. -/
def planeStep (mv : MoveFn) (upgrades : List TechUpgrade)
    (allPlanes : List Plane) (acc : TickAcc) (p : Plane) : TickAcc :=
  let updatedP := updatePlanePhysics mv upgrades p allPlanes acc.occupancy
  let occ2 :=
    match updatedP.targetGateId with
    | some g =>
        if updatedP.targetGateId ≠ p.targetGateId then
          occSet acc.occupancy g updatedP.id
        else acc.occupancy
    | none => acc.occupancy
  let step1 :=
    if p.status = PlaneStatus.PARKED ∧ updatedP.status = PlaneStatus.TAXI_OUT then
      ({ acc.economy with balance := acc.economy.balance + p.revenue },
       markDepartedFirst acc.schedule p.id,
       ("Flight departed." :: acc.logs).take 50)
    else (acc.economy, acc.schedule, acc.logs)
  let step2 :=
    if p.status ≠ PlaneStatus.GO_AROUND ∧ updatedP.status = PlaneStatus.GO_AROUND then
      ({ step1.1 with reputation := step1.1.reputation - 1 },
       ("Go Around! Runway blocked." :: step1.2.2).take 50)
    else (step1.1, step1.2.2)
  { planes := acc.planes ++ [updatedP],
    occupancy := occ2,
    economy := step2.1,
    schedule := step1.2.1,
    logs := step2.2 }

/-- Tick steps 4–5: process `current.planes ++ newPlanes` in array order
against the occupancy snapshot `occ0` (mid-tick claims visible to later
planes), then drop every plane that reached `DEPARTED`. -/
def physicsPass (mv : MoveFn) (upgrades : List TechUpgrade)
    (planes newPlanes : List Plane) (occ0 : GateOccupancy) (econ : Economy)
    (schedule : List ScheduledFlight) (logs : List String) : TickAcc :=
  let allPlanes := planes ++ newPlanes
  let acc := allPlanes.foldl (planeStep mv upgrades allPlanes)
    ⟨[], occ0, econ, schedule, logs⟩
  { acc with
    planes := acc.planes.filter fun p => p.status ≠ PlaneStatus.DEPARTED }

/-! ## Economy mutators -/

/-- Tick step 6 (every 1440 ticks): organic demand growth, clamped into
`[10, 200]`. -/
def economyGrowth (econ : Economy) (upgrades : List TechUpgrade) : Economy :=
  let growth0 : ℚ := 0
  let growth1 := if econ.reputation > 60 then growth0 + 1 / 2 else growth0
  let growth2 := if econ.reputation < 40 then growth1 - 1 / 2 else growth1
  let unlockedCount := (upgrades.filter fun u => u.unlocked = true).length
  let growth3 := growth2 + (unlockedCount : ℚ) * (1 / 5)
  { econ with demand := max 10 (min 200 (econ.demand + growth3)) }

/-- Apply an upgrade's one-time effect closure. -/
def applyEffect (e : UpgradeEffect) (s : GameState) : GameState :=
  match e with
  | UpgradeEffect.noEffect => s
  | UpgradeEffect.addDemand n =>
      { s with economy := { s.economy with demand := s.economy.demand + n } }
  | UpgradeEffect.addTourism n =>
      { s with economy :=
          { s.economy with tourismScore := s.economy.tourismScore + n } }

/-- `addLog`: prepend a message, keep the newest 50. -/
def addLog (message : String) (s : GameState) : GameState :=
  { s with logs := (message :: s.logs).take 50 }

/-- `purchaseUpgrade(id)`: a silent no-op when the upgrade is missing,
already unlocked, or unaffordable; otherwise debit the cost, set the
unlocked flag, apply the effect once, and log. -/
def purchaseUpgrade (id : String) (s : GameState) : GameState :=
  match s.upgrades.find? (fun u => u.id = id) with
  | none => s
  | some upgrade =>
      if upgrade.unlocked = true ∨ s.economy.balance < upgrade.cost then s
      else
        let newUpgrades := s.upgrades.map fun u =>
          if u.id = id then { u with unlocked := true } else u
        let newState :=
          { s with
            economy := { s.economy with
                         balance := s.economy.balance - upgrade.cost },
            upgrades := newUpgrades }
        addLog "Purchased upgrade" (applyEffect upgrade.effect newState)

/-- The two campaign kinds of `influenceEconomy`. -/
inductive CampaignType
  | tourism
  | industry
deriving DecidableEq

/-- `influenceEconomy(type)`: below the fixed 25000 cost only a warning is
logged; otherwise debit 25000, add 5 to the chosen score and 5 to demand,
and log. -/
def influenceEconomy (ctype : CampaignType) (s : GameState) : GameState :=
  let cost : ℚ := 25000
  if s.economy.balance < cost then
    addLog "Not enough funds for campaign!" s
  else
    let e1 := { s.economy with balance := s.economy.balance - cost }
    let e2 :=
      match ctype with
      | CampaignType.tourism =>
          { e1 with tourismScore := e1.tourismScore + 5 }
      | CampaignType.industry =>
          { e1 with industryScore := e1.industryScore + 5 }
    let e3 := { e2 with demand := e2.demand + 5 }
    addLog "Ran campaign. Demand increased." { s with economy := e3 }

/-! ## Scheduler (`generateSchedule`) -/

/-- A committed gate-occupancy interval `{start, end}` (the `end` field is
named `stop`, `end` being a Lean keyword). -/
structure Iv where
  start : ℤ
  stop : ℤ
deriving DecidableEq

/-- `GATE_OCCUPANCY_WINDOW = 450`. -/
def GATE_OCCUPANCY_WINDOW : ℤ := 450

/-- A sweep-line event `(t, type)`: interval start is `(start, 1)`,
interval end is `(end, -1)`. -/
abbrev Ev := ℤ × ℤ

/-- The event list: each interval pushes its start then its end. -/
def ivEvents (l : List Iv) : List Ev :=
  l.foldr (fun iv acc => (iv.start, 1) :: (iv.stop, -1) :: acc) []

/-- The sort comparator `a.t - b.t || a.type - b.type`: ascending time,
ends (−1) before starts (+1) on ties. -/
def evLE (a b : Ev) : Bool :=
  decide (a.1 < b.1 ∨ (a.1 = b.1 ∧ a.2 ≤ b.2))

/-- The sweep loop: running concurrency counter and its maximum. -/
def sweepFold : List Ev → ℤ → ℤ → ℤ
  | [], _, maxConcurrent => maxConcurrent
  | p :: rest, currentConcurrent, maxConcurrent =>
      let c := currentConcurrent + p.2
      sweepFold rest c (max maxConcurrent c)

/-- Maximum concurrency of a set of intervals, computed exactly as in the
source: sort the start/end events (ends before starts on equal times) and
track a running counter. -/
def maxConcurrency (l : List Iv) : ℤ :=
  sweepFold ((ivEvents l).mergeSort evLE) 0 0

/-- Parameters of one scheduling batch.  `effectiveDemand` stands for
`Math.floor(baseDemand * seasonality)` computed by the caller — the
seasonality multiplier itself is real-valued (see `seasonalityScheduler`
below) and enters the interval logic only through this integer. -/
structure SchedCtx where
  currentTime : ℤ
  totalGates : ℤ
  effectiveDemand : ℤ
  rnd : ℕ → ℚ

/-- Mutable state of the generation loop: the committed intervals, the
accepted flights, and the randomness cursor (which also serves as the
fresh uuid for a new flight). -/
structure GenState where
  committedIntervals : List Iv
  futureFlights : List ScheduledFlight
  ri : ℕ

/-- The accepted-flight category block: two independent conditional
`Math.random()` draws upgrade the category to narrowbody/widebody at high
effective demand.  Returns the category and the advanced cursor. -/
def pickType (ctx : SchedCtx) (i3 : ℕ) : PlaneType × ℕ :=
  let t0 := PlaneType.regional
  let step1 : PlaneType × ℕ :=
    if ctx.effectiveDemand > 50 then
      (if ctx.rnd i3 > 1 / 2 then PlaneType.narrowbody else t0, i3 + 1)
    else (t0, i3)
  let step2 : PlaneType × ℕ :=
    if ctx.effectiveDemand > 80 then
      (if ctx.rnd step1.2 > 4 / 5 then PlaneType.widebody else step1.1,
       step1.2 + 1)
    else step1
  step2

/-- One body of the `while (attempts < 15 && !scheduled)` loop: draw a
candidate time 1–6 h ahead, filter the committed intervals overlapping its
window, sweep for max concurrency, and accept when it stays within the
gate count.  Returns the new state and the `scheduled` flag. -/
def attemptOnce (ctx : SchedCtx) (st : GenState) : GenState × Bool :=
  let r := ctx.rnd st.ri
  let scheduledTime := ctx.currentTime + ⌊r * 360⌋ + 60
  let candidateEnd := scheduledTime + GATE_OCCUPANCY_WINDOW
  let candidate : Iv := ⟨scheduledTime, candidateEnd⟩
  let relevant :=
    (st.committedIntervals ++ [candidate]).filter
      fun iv => iv.start < candidateEnd ∧ iv.stop > scheduledTime
  let maxConcurrent := maxConcurrency relevant
  if maxConcurrent ≤ ctx.totalGates then
    let i1 := st.ri + 1
    let airline := (⌊ctx.rnd i1 * 5⌋ : ℤ)
    let i2 := i1 + 1
    let flightNumber := (⌊ctx.rnd i2 * 900⌋ : ℤ) + 100
    let i3 := i2 + 1
    let picked := pickType ctx i3
    let newFlight : ScheduledFlight :=
      { id := st.ri,
        airline := airline,
        flightNumber := flightNumber,
        type := picked.1,
        scheduledTime := scheduledTime,
        isArrival := true,
        status := FlightStatus.Scheduled }
    ({ committedIntervals := st.committedIntervals ++ [candidate],
       futureFlights := st.futureFlights ++ [newFlight],
       ri := picked.2 }, true)
  else
    ({ st with ri := st.ri + 1 }, false)

/-- The retry loop: up to `fuel` (= 15) attempts, stopping at the first
accepted slot. -/
def attemptLoop (ctx : SchedCtx) : ℕ → GenState → GenState
  | 0, st => st
  | fuel + 1, st =>
      let r := attemptOnce ctx st
      if r.2 then r.1 else attemptLoop ctx fuel r.1

/-- The `for (let i = 0; i < numFlights; i++)` loop. -/
def genLoop (ctx : SchedCtx) : ℕ → GenState → GenState
  | 0, st => st
  | n + 1, st => genLoop ctx n (attemptLoop ctx 15 st)

/-- The committed intervals of the still-pending scheduled flights:
`schedule.filter(s => s.status === 'Scheduled' && s.scheduledTime > t)`,
each presumed to hold a gate for `GATE_OCCUPANCY_WINDOW` ticks. -/
def pendingIntervals (schedule : List ScheduledFlight) (currentTime : ℤ) :
    List Iv :=
  (schedule.filter fun s =>
      s.status = FlightStatus.Scheduled ∧ s.scheduledTime > currentTime).map
    fun f => ⟨f.scheduledTime, f.scheduledTime + GATE_OCCUPANCY_WINDOW⟩

/-- `generateSchedule(currentTime, baseDemand)`; `effectiveDemand` is the
caller-computed `Math.floor(baseDemand * seasonality)`. -/
def generateSchedule (currentTime : ℤ) (effectiveDemand : ℤ)
    (upgrades : List TechUpgrade) (schedule : List ScheduledFlight)
    (rnd : ℕ → ℚ) : List ScheduledFlight :=
  let totalGates : ℤ := if hasTerminalExp upgrades then 4 else 3
  let committedIntervals := pendingIntervals schedule currentTime
  let numFlights := max 1 ⌈(effectiveDemand : ℚ) / 12⌉
  let ctx : SchedCtx := ⟨currentTime, totalGates, effectiveDemand, rnd⟩
  let st0 : GenState := ⟨committedIntervals, [], 0⟩
  let final := genLoop ctx numFlights.toNat st0
  final.futureFlights.mergeSort fun a b =>
    decide (a.scheduledTime ≤ b.scheduledTime)

/-- The gate-occupancy window `[t, t + 450)` of one flight. -/
def flightWindow (f : ScheduledFlight) : Iv :=
  ⟨f.scheduledTime, f.scheduledTime + GATE_OCCUPANCY_WINDOW⟩

/-- Number of intervals simultaneously live at instant `τ`, with the
half-open reading matching the sweep's tie rule: an interval ending exactly
at `τ` no longer counts, one starting at `τ` already does. -/
def countCover (l : List Iv) (τ : ℤ) : ℕ :=
  l.countP fun iv => decide (iv.start ≤ τ ∧ τ < iv.stop)

/-! ## Calendar seasonality -/

/-- The multiplier used by the live scheduler
(`1 + 0.3 * Math.sin((date.monthIndex - 2) * Math.PI / 6)`). -/
noncomputable def seasonalityScheduler (monthIndex : ℤ) : ℝ :=
  1 + (3 / 10) * Real.sin (((monthIndex : ℝ) - 2) * Real.pi / 6)

/-- The multiplier used by the dashboard traffic projection
(`1 + 0.3 * Math.sin((monthOffset - 2) * Math.PI / 6)`). -/
noncomputable def seasonalityProjection (monthOffset : ℤ) : ℝ :=
  1 + (3 / 10) * Real.sin (((monthOffset : ℝ) - 2) * Real.pi / 6)

/-! ## Concrete fixtures used by witnesses and counterexamples -/

/-- A minimal plane fixture. -/
def stubPlane (pid : ℕ) (st : PlaneStatus) : Plane :=
  { id := pid, airline := 0, flightNumber := 0, type := PlaneType.regional,
    status := st, position := ⟨0, 0, 0⟩, waypoints := [], targetGateId := none,
    passengers := 0, revenue := 0, fuel := 100, timer := 0, history := [] }

/-- A minimal scheduled-flight fixture. -/
def flightStub (fid : ℕ) (t : ℤ) : ScheduledFlight :=
  { id := fid, airline := 0, flightNumber := 100, type := PlaneType.regional,
    scheduledTime := t, isArrival := true, status := FlightStatus.Scheduled }

/-- A movement kernel that never advances: used to instantiate `MoveFn`
in closed evaluations. -/
def mvStatic : MoveFn := fun pos _ _ _ => (pos, false)

/-! ## C9 — seasonality refinement -/

/-- C9: for every month index the seasonality multiplier used by the live
scheduler equals the one used by the traffic projection (both
`1 + 0.3 * sin((m - 2) * π / 6)`), and this common function is periodic
with period 12 and bounded in `[0.7, 1.3]`. -/
theorem seasonality_consistent :
    (∀ m : ℤ, seasonalityScheduler m = seasonalityProjection m)
    ∧ (∀ m : ℤ, seasonalityScheduler (m + 12) = seasonalityScheduler m)
    ∧ (∀ m : ℤ, (7 : ℝ) / 10 ≤ seasonalityScheduler m
        ∧ seasonalityScheduler m ≤ 13 / 10) := by
  refine ⟨fun m => rfl, fun m => ?_, fun m => ?_⟩
  · unfold seasonalityScheduler
    have h : (((m + 12 : ℤ) : ℝ) - 2) * Real.pi / 6
        = ((m : ℝ) - 2) * Real.pi / 6 + 2 * Real.pi := by
      push_cast
      ring
    rw [h, Real.sin_add_two_pi]
  · unfold seasonalityScheduler
    have h1 := Real.neg_one_le_sin (((m : ℝ) - 2) * Real.pi / 6)
    have h2 := Real.sin_le_one (((m : ℝ) - 2) * Real.pi / 6)
    constructor <;> nlinarith

/-! ## C3 — economy bounds -/

/-- C3 counterexample: a single diversion mutation drives reputation below
its declared lower bound 0 — with reputation 1 and three aircraft waiting
for gates (congestion), the due flight is diverted and the post-mutation
reputation is `1 - 2 = -1 < 0`.  The penalty mutations do not clamp. -/
theorem economy_bounds_cex :
    (processSpawns 0
        [stubPlane 1 PlaneStatus.WAITING_FOR_GATE,
         stubPlane 2 PlaneStatus.WAITING_FOR_GATE,
         stubPlane 3 PlaneStatus.WAITING_FOR_GATE]
        [flightStub 9 0]
        { balance := 1000, tourismScore := 20, industryScore := 30,
          demand := 40, reputation := 1 }
        [] (fun _ => (0, 0))).economy.reputation < 0 := by
  norm_num [processSpawns, spawnFold, divertFlight, stubPlane, flightStub]

/-- C3 (amended): only the periodic organic-growth mutation clamps — its
result always keeps demand in `[10, 200]` — while the diversion penalty
mutates reputation and balance by fixed unclamped deltas (−2 and −500) and
an upgrade's demand effect adds its raw amount to demand without any
clamp. -/
theorem economy_growth_clamped :
    ∀ (econ : Economy) (upgrades : List TechUpgrade),
      (10 ≤ (economyGrowth econ upgrades).demand
        ∧ (economyGrowth econ upgrades).demand ≤ 200)
      ∧ (divertFlight econ).reputation = econ.reputation - 2
      ∧ (divertFlight econ).balance = econ.balance - 500
      ∧ ∀ (s : GameState) (n : ℚ),
          (applyEffect (UpgradeEffect.addDemand n) s).economy.demand
            = s.economy.demand + n := by
  intro econ upgrades
  refine ⟨⟨le_max_left _ _, ?_⟩, rfl, rfl, fun s n => rfl⟩
  exact max_le (by norm_num) (min_le_left _ _)

/-! ## C10 — campaign guard -/

/-- C10: `influenceEconomy` with balance strictly below the fixed 25000
cost leaves the economy unchanged (only a log entry is added); with
balance at least 25000 it debits exactly 25000, adds 5 to the chosen
score, and adds 5 to demand. -/
theorem influence_economy_spec (s : GameState) (t : CampaignType) :
    (s.economy.balance < 25000 →
       (influenceEconomy t s).economy = s.economy
       ∧ (influenceEconomy t s).schedule = s.schedule
       ∧ (influenceEconomy t s).planes = s.planes
       ∧ (influenceEconomy t s).upgrades = s.upgrades
       ∧ (influenceEconomy t s).logs
           = ("Not enough funds for campaign!" :: s.logs).take 50)
    ∧ (25000 ≤ s.economy.balance →
       (influenceEconomy t s).economy.balance = s.economy.balance - 25000
       ∧ (influenceEconomy t s).economy.demand = s.economy.demand + 5
       ∧ (influenceEconomy t s).economy.reputation = s.economy.reputation
       ∧ (t = CampaignType.tourism →
           (influenceEconomy t s).economy.tourismScore
             = s.economy.tourismScore + 5
           ∧ (influenceEconomy t s).economy.industryScore
             = s.economy.industryScore)
       ∧ (t = CampaignType.industry →
           (influenceEconomy t s).economy.industryScore
             = s.economy.industryScore + 5
           ∧ (influenceEconomy t s).economy.tourismScore
             = s.economy.tourismScore)) := by
  constructor
  · intro h
    unfold influenceEconomy
    rw [if_pos h]
    exact ⟨rfl, rfl, rfl, rfl, rfl⟩
  · intro h
    unfold influenceEconomy
    rw [if_neg (not_lt.mpr h)]
    cases t
    · refine ⟨rfl, rfl, rfl, fun _ => ⟨rfl, rfl⟩, fun ht => ?_⟩
      cases ht
    · refine ⟨rfl, rfl, rfl, fun ht => ?_, fun _ => ⟨rfl, rfl⟩⟩
      cases ht

/-- Witness for C10 at a concrete state. -/
theorem influence_economy_spec_witness :
    (INITIAL_ECONOMY.balance < 25000 ∨ 25000 ≤ INITIAL_ECONOMY.balance)
    ∧ ((influenceEconomy CampaignType.tourism
          ⟨0, [], [], INITIAL_ECONOMY, INITIAL_UPGRADES, [], []⟩).economy.balance
        = INITIAL_ECONOMY.balance - 25000) := by
  refine ⟨Or.inr (by decide), ?_⟩
  exact ((influence_economy_spec
    ⟨0, [], [], INITIAL_ECONOMY, INITIAL_UPGRADES, [], []⟩
    CampaignType.tourism).2 (by decide)).1

/-! ## C7 — upgrade purchase -/

theorem applyEffect_balance (e : UpgradeEffect) (s : GameState) :
    (applyEffect e s).economy.balance = s.economy.balance := by
  cases e <;> rfl

theorem applyEffect_upgrades (e : UpgradeEffect) (s : GameState) :
    (applyEffect e s).upgrades = s.upgrades := by
  cases e <;> rfl

theorem find?_map_unlock (l : List TechUpgrade) (id : String)
    (u : TechUpgrade) (h : l.find? (fun x => x.id = id) = some u) :
    (l.map fun x => if x.id = id then { x with unlocked := true } else x).find?
      (fun x => x.id = id) = some { u with unlocked := true } := by
  induction l with
  | nil => simp at h
  | cons a l ih =>
      by_cases ha : a.id = id
      · rw [List.find?_cons_of_pos _ (by simpa using ha)] at h
        cases h
        rw [List.map_cons, if_pos ha]
        exact List.find?_cons_of_pos _ (by simpa using ha)
      · rw [List.find?_cons_of_neg _ (by simpa using ha)] at h
        rw [List.map_cons, if_neg ha,
          List.find?_cons_of_neg _ (by simpa using ha)]
        exact ih h

/-- C7: `purchaseUpgrade id` leaves the state unchanged when the upgrade is
already unlocked or unaffordable; otherwise it debits exactly the cost,
sets the unlocked flag, applies the one-time effect exactly once, and a
repeat purchase attempt is a no-op. -/
theorem purchase_upgrade_spec (s : GameState) (id : String) (u : TechUpgrade)
    (hfind : s.upgrades.find? (fun x => x.id = id) = some u) :
    ((u.unlocked = true ∨ s.economy.balance < u.cost) →
        purchaseUpgrade id s = s)
    ∧ (u.unlocked = false → u.cost ≤ s.economy.balance →
        (purchaseUpgrade id s).economy.balance = s.economy.balance - u.cost
        ∧ ((purchaseUpgrade id s).upgrades.find? (fun x => x.id = id)
            = some { u with unlocked := true })
        ∧ (u.effect = UpgradeEffect.noEffect →
            (purchaseUpgrade id s).economy.demand = s.economy.demand
            ∧ (purchaseUpgrade id s).economy.tourismScore
                = s.economy.tourismScore)
        ∧ (∀ n, u.effect = UpgradeEffect.addDemand n →
            (purchaseUpgrade id s).economy.demand = s.economy.demand + n)
        ∧ (∀ n, u.effect = UpgradeEffect.addTourism n →
            (purchaseUpgrade id s).economy.tourismScore
              = s.economy.tourismScore + n)
        ∧ purchaseUpgrade id (purchaseUpgrade id s) = purchaseUpgrade id s) := by
  constructor
  · intro h
    unfold purchaseUpgrade
    rw [hfind]
    exact if_pos h
  · intro h1 h2
    have hcond : ¬(u.unlocked = true ∨ s.economy.balance < u.cost) := by
      rw [h1]
      push_neg
      exact ⟨Bool.false_ne_true, h2⟩
    have hres : purchaseUpgrade id s
        = addLog "Purchased upgrade" (applyEffect u.effect
            { s with
              economy := { s.economy with
                           balance := s.economy.balance - u.cost },
              upgrades := s.upgrades.map fun x =>
                if x.id = id then { x with unlocked := true } else x }) := by
      unfold purchaseUpgrade
      rw [hfind]
      exact if_neg hcond
    have hup : (purchaseUpgrade id s).upgrades
        = s.upgrades.map fun x =>
            if x.id = id then { x with unlocked := true } else x := by
      rw [hres]
      show (applyEffect u.effect _).upgrades = _
      rw [applyEffect_upgrades]
    have hfind2 : (purchaseUpgrade id s).upgrades.find? (fun x => x.id = id)
        = some { u with unlocked := true } := by
      rw [hup]
      exact find?_map_unlock s.upgrades id u hfind
    refine ⟨?_, hfind2, ?_, ?_, ?_, ?_⟩
    · rw [hres]
      show (applyEffect u.effect _).economy.balance = _
      rw [applyEffect_balance]
    · intro he
      rw [hres, he]
      exact ⟨rfl, rfl⟩
    · intro n he
      rw [hres, he]
      rfl
    · intro n he
      rw [hres, he]
      rfl
    · have hstep : ∀ s1 : GameState,
          s1.upgrades.find? (fun x => x.id = id)
            = some { u with unlocked := true } →
          purchaseUpgrade id s1 = s1 := by
        intro s1 hf
        unfold purchaseUpgrade
        rw [hf]
        exact if_pos (Or.inl rfl)
      exact hstep _ hfind2

/-- Witness for C7: buying `radar_system` with balance 500000 debits
450000, unlocks it and adds 25 demand; a repeat attempt is a no-op. -/
theorem purchase_upgrade_spec_witness :
    (INITIAL_UPGRADES.find? (fun x => x.id = "radar_system")
        = some ⟨"radar_system", 450000, false, UpgradeEffect.addDemand 25⟩)
    ∧ ((purchaseUpgrade "radar_system"
          ⟨0, [], [], { INITIAL_ECONOMY with balance := 500000 },
           INITIAL_UPGRADES, [], []⟩).economy.balance
        = (500000 : ℚ) - 450000
       ∧ purchaseUpgrade "radar_system"
           (purchaseUpgrade "radar_system"
             ⟨0, [], [], { INITIAL_ECONOMY with balance := 500000 },
              INITIAL_UPGRADES, [], []⟩)
         = purchaseUpgrade "radar_system"
             ⟨0, [], [], { INITIAL_ECONOMY with balance := 500000 },
              INITIAL_UPGRADES, [], []⟩) := by
  have h := purchase_upgrade_spec
    ⟨0, [], [], { INITIAL_ECONOMY with balance := 500000 },
     INITIAL_UPGRADES, [], []⟩
    "radar_system" ⟨"radar_system", 450000, false, UpgradeEffect.addDemand 25⟩
    (by decide)
  have h2 := h.2 rfl (by decide)
  exact ⟨by decide, h2.1, h2.2.2.2.2.2⟩

/-! ## C4 — congestion admission control -/

theorem spawnFold_congested (rnd : ℕ → ℚ × ℚ) (l : List (ℕ × ScheduledFlight)) :
    ∀ (ps : List Plane) (econ : Economy) (logs : List String),
      (spawnFold true rnd l (ps, econ, logs)).1 = ps
      ∧ (spawnFold true rnd l (ps, econ, logs)).2.1.balance
          = econ.balance - 500 * l.length
      ∧ (spawnFold true rnd l (ps, econ, logs)).2.1.reputation
          = econ.reputation - 2 * l.length := by
  induction l with
  | nil =>
      intro ps econ logs
      refine ⟨rfl, ?_, ?_⟩ <;> simp [spawnFold]
  | cons hd tl ih =>
      intro ps econ logs
      obtain ⟨i, f⟩ := hd
      have h := ih ps (divertFlight econ)
        (("Flight diverted (Congestion)." :: logs).take 50)
      refine ⟨h.1, ?_, ?_⟩
      · rw [show spawnFold true rnd ((i, f) :: tl) (ps, econ, logs)
            = spawnFold true rnd tl (ps, divertFlight econ,
                ("Flight diverted (Congestion)." :: logs).take 50) from rfl,
          h.2.1]
        unfold divertFlight
        rw [List.length_cons]
        push_cast
        ring
      · rw [show spawnFold true rnd ((i, f) :: tl) (ps, econ, logs)
            = spawnFold true rnd tl (ps, divertFlight econ,
                ("Flight diverted (Congestion)." :: logs).take 50) from rfl,
          h.2.2]
        unfold divertFlight
        rw [List.length_cons]
        push_cast
        ring

theorem spawnFold_clear (rnd : ℕ → ℚ × ℚ) (l : List (ℕ × ScheduledFlight)) :
    ∀ (ps : List Plane) (econ : Economy) (logs : List String),
      (spawnFold false rnd l (ps, econ, logs)).1
        = ps ++ l.map (fun e => createPlane e.2 (rnd e.1).1 (rnd e.1).2)
      ∧ (spawnFold false rnd l (ps, econ, logs)).2.1 = econ := by
  induction l with
  | nil =>
      intro ps econ logs
      exact ⟨by simp [spawnFold], rfl⟩
  | cons hd tl ih =>
      intro ps econ logs
      obtain ⟨i, f⟩ := hd
      have h := ih (ps ++ [createPlane f (rnd i).1 (rnd i).2]) econ
        (("on approach." :: logs).take 50)
      refine ⟨?_, h.2⟩
      rw [show spawnFold false rnd ((i, f) :: tl) (ps, econ, logs)
          = spawnFold false rnd tl (ps ++ [createPlane f (rnd i).1 (rnd i).2],
              econ, ("on approach." :: logs).take 50) from rfl,
        h.1]
      simp

/-- C4: when a scheduled flight's time arrives, the driver diverts it
(status `Diverted`, −500 balance and −2 reputation each, no aircraft
created) when the waiting-for-gate count exceeds 2 or the hold-short
backlog exceeds 3; otherwise it marks every due flight `On Time` and
spawns exactly one aircraft per due flight. -/
theorem admission_control (gameTime : ℤ) (planes : List Plane)
    (schedule : List ScheduledFlight) (econ : Economy) (logs : List String)
    (rnd : ℕ → ℚ × ℚ) :
    (((planes.filter fun p =>
          p.status = PlaneStatus.WAITING_FOR_GATE).length > 2
       ∨ (planes.filter fun p =>
            p.status = PlaneStatus.HOLD_SHORT).length > 3) →
       (processSpawns gameTime planes schedule econ logs rnd).newPlanes = []
       ∧ (processSpawns gameTime planes schedule econ logs rnd).economy.balance
           = econ.balance - 500 * (schedule.filter fun s =>
               s.status = FlightStatus.Scheduled
               ∧ s.scheduledTime ≤ gameTime).length
       ∧ (processSpawns gameTime planes schedule econ logs
            rnd).economy.reputation
           = econ.reputation - 2 * (schedule.filter fun s =>
               s.status = FlightStatus.Scheduled
               ∧ s.scheduledTime ≤ gameTime).length
       ∧ (processSpawns gameTime planes schedule econ logs rnd).schedule
           = schedule.map fun s =>
               if s.status = FlightStatus.Scheduled
                  ∧ s.scheduledTime ≤ gameTime then
                 { s with status := FlightStatus.Diverted }
               else s)
    ∧ (¬((planes.filter fun p =>
            p.status = PlaneStatus.WAITING_FOR_GATE).length > 2
         ∨ (planes.filter fun p =>
              p.status = PlaneStatus.HOLD_SHORT).length > 3) →
       (processSpawns gameTime planes schedule econ logs rnd).newPlanes
         = (schedule.filter fun s =>
             s.status = FlightStatus.Scheduled
             ∧ s.scheduledTime ≤ gameTime).enum.map
               (fun e => createPlane e.2 (rnd e.1).1 (rnd e.1).2)
       ∧ (processSpawns gameTime planes schedule econ logs rnd).economy = econ
       ∧ (processSpawns gameTime planes schedule econ logs rnd).schedule
           = schedule.map fun s =>
               if s.status = FlightStatus.Scheduled
                  ∧ s.scheduledTime ≤ gameTime then
                 { s with status := FlightStatus.OnTime }
               else s) := by
  constructor
  · intro h
    have hc : decide ((planes.filter fun p =>
          p.status = PlaneStatus.WAITING_FOR_GATE).length > 2
        ∨ (planes.filter fun p =>
            p.status = PlaneStatus.HOLD_SHORT).length > 3) = true :=
      decide_eq_true h
    unfold processSpawns
    simp only [hc]
    have hfold := spawnFold_congested rnd
      ((schedule.filter fun s =>
          s.status = FlightStatus.Scheduled
          ∧ s.scheduledTime ≤ gameTime).enum) [] econ logs
    refine ⟨hfold.1, ?_, ?_, rfl⟩
    · rw [hfold.2.1]
      simp
    · rw [hfold.2.2]
      simp
  · intro h
    have hc : decide ((planes.filter fun p =>
          p.status = PlaneStatus.WAITING_FOR_GATE).length > 2
        ∨ (planes.filter fun p =>
            p.status = PlaneStatus.HOLD_SHORT).length > 3) = false :=
      decide_eq_false h
    unfold processSpawns
    simp only [hc]
    have hfold := spawnFold_clear rnd
      ((schedule.filter fun s =>
          s.status = FlightStatus.Scheduled
          ∧ s.scheduledTime ≤ gameTime).enum) [] econ logs
    refine ⟨?_, hfold.2, rfl⟩
    rw [hfold.1]
    simp

/-- Witness for C4: with three waiting aircraft one due flight is
diverted and no plane spawns; with no congestion it spawns. -/
theorem admission_control_witness :
    (([stubPlane 1 PlaneStatus.WAITING_FOR_GATE,
       stubPlane 2 PlaneStatus.WAITING_FOR_GATE,
       stubPlane 3 PlaneStatus.WAITING_FOR_GATE].filter fun p =>
          p.status = PlaneStatus.WAITING_FOR_GATE).length > 2
      ∨ ([stubPlane 1 PlaneStatus.WAITING_FOR_GATE,
          stubPlane 2 PlaneStatus.WAITING_FOR_GATE,
          stubPlane 3 PlaneStatus.WAITING_FOR_GATE].filter fun p =>
             p.status = PlaneStatus.HOLD_SHORT).length > 3)
    ∧ (processSpawns 0
         [stubPlane 1 PlaneStatus.WAITING_FOR_GATE,
          stubPlane 2 PlaneStatus.WAITING_FOR_GATE,
          stubPlane 3 PlaneStatus.WAITING_FOR_GATE]
         [flightStub 9 0] INITIAL_ECONOMY [] (fun _ => (0, 0))).newPlanes
        = [] := by
  have h := (admission_control 0
    [stubPlane 1 PlaneStatus.WAITING_FOR_GATE,
     stubPlane 2 PlaneStatus.WAITING_FOR_GATE,
     stubPlane 3 PlaneStatus.WAITING_FOR_GATE]
    [flightStub 9 0] INITIAL_ECONOMY [] (fun _ => (0, 0))).1 (by decide)
  exact ⟨by decide, h.1⟩

/-! ## Stage lemmas for the state machine -/

theorem approachStage_of_ne (all : List Plane) (p : Plane)
    (h : p.status ≠ PlaneStatus.APPROACH) : approachStage all p = p := by
  unfold approachStage
  rw [if_neg h]

theorem holdShortStage_of_ne (all : List Plane) (u : Plane × ℚ)
    (h : u.1.status ≠ PlaneStatus.HOLD_SHORT) : holdShortStage all u = u := by
  unfold holdShortStage
  rw [if_neg h]

theorem waitingGateStage_of_ne (occ : GateOccupancy)
    (upg : List TechUpgrade) (u : Plane × ℚ)
    (h : u.1.status ≠ PlaneStatus.WAITING_FOR_GATE) :
    waitingGateStage occ upg u = u := by
  unfold waitingGateStage
  rw [if_neg h]

theorem moveStage_nil (mv : MoveFn) (u : Plane × ℚ)
    (h : u.1.waypoints = []) : moveStage mv u = u.1 := by
  unfold moveStage
  rw [h]

theorem moveStage_status (mv : MoveFn) (u : Plane × ℚ) :
    (moveStage mv u).status = u.1.status := by
  unfold moveStage
  rcases u.1.waypoints with _ | ⟨t, rest⟩
  · rfl
  · dsimp only
    split <;> rfl

theorem moveStage_targetGateId (mv : MoveFn) (u : Plane × ℚ) :
    (moveStage mv u).targetGateId = u.1.targetGateId := by
  unfold moveStage
  rcases u.1.waypoints with _ | ⟨t, rest⟩
  · rfl
  · dsimp only
    split <;> rfl

theorem transitionStage_default (occ : GateOccupancy)
    (upg : List TechUpgrade) (u : Plane)
    (h : u.status = PlaneStatus.WAITING_FOR_GATE
       ∨ u.status = PlaneStatus.HOLD_SHORT
       ∨ u.status = PlaneStatus.DEPARTED
       ∨ u.status = PlaneStatus.DIVERTED) :
    transitionStage occ upg u = u := by
  unfold transitionStage
  rcases h with h | h | h | h <;> rw [h]

theorem getFreeGate_mem (occ : GateOccupancy) (upg : List TechUpgrade)
    (g : String) (h : getFreeGate occ upg = some g) :
    g = "gate_1" ∨ g = "gate_2" ∨ g = "gate_3" ∨ g = "gate_4" := by
  unfold getFreeGate at h
  have hmem := List.mem_of_find?_eq_some h
  split at hmem <;> simp only [List.mem_cons, List.not_mem_nil,
    or_false] at hmem <;> tauto

theorem getFreeGate_node (occ : GateOccupancy) (upg : List TechUpgrade)
    (g : String) (h : getFreeGate occ upg = some g) :
    ∃ node : Node, MAP_NODES.find? (fun n => n.id = g) = some node
      ∧ node.id = g := by
  rcases getFreeGate_mem occ upg g h with rfl | rfl | rfl | rfl
  · exact ⟨⟨"gate_1", 800, 950, "gate"⟩, by decide, rfl⟩
  · exact ⟨⟨"gate_2", 1000, 950, "gate"⟩, by decide, rfl⟩
  · exact ⟨⟨"gate_3", 1200, 950, "gate"⟩, by decide, rfl⟩
  · exact ⟨⟨"gate_4", 1400, 950, "gate"⟩, by decide, rfl⟩

theorem getFreeGate_free (occ : GateOccupancy) (upg : List TechUpgrade)
    (g : String) (h : getFreeGate occ upg = some g) :
    occGet occ g = none := by
  unfold getFreeGate at h
  have hp := List.find?_some h
  simpa [Option.isNone_iff_eq_none] using hp

theorem speedAdjust_fst (u : Plane × ℚ) : (speedAdjust u).1 = u.1 := rfl

/-- The plane produced by a hold-short release. -/
def takeoffOf (p : Plane) : Plane :=
  { p with
    status := PlaneStatus.TAKEOFF,
    waypoints := [⟨3000, 750, 90⟩],
    history := p.history ++ ["Cleared for Takeoff"] }

theorem holdShort_blocked (mv : MoveFn) (upgrades : List TechUpgrade)
    (allPlanes : List Plane) (occ : GateOccupancy) (p : Plane)
    (hs : p.status = PlaneStatus.HOLD_SHORT) (hw : p.waypoints = [])
    (hb : ¬(isRunwayOccupied allPlanes (some p.id) = false
        ∧ (allPlanes.any fun q =>
             q.status = PlaneStatus.APPROACH ∧ q.position.x > -200) = false)) :
    updatePlanePhysics mv upgrades p allPlanes occ = p := by
  have h2 : holdShortStage allPlanes (p, baseSpeed p.type) = (p, 0) := by
    unfold holdShortStage
    rw [if_pos hs]
    cases hocc : isRunwayOccupied allPlanes (some p.id) with
    | true => simp
    | false =>
        cases hinc : (allPlanes.any fun q =>
            q.status = PlaneStatus.APPROACH ∧ q.position.x > -200) with
        | true => simp
        | false => exact absurd ⟨hocc, hinc⟩ hb
  simp only [updatePlanePhysics]
  rw [approachStage_of_ne _ _ (by simp [hs]), h2,
    waitingGateStage_of_ne _ _ _ (by simp [hs])]
  rw [moveStage_nil _ _ (by exact hw)]
  simp only [speedAdjust_fst]
  rw [if_pos hw]
  exact transitionStage_default _ _ _ (Or.inr (Or.inl hs))

theorem holdShort_released (mv : MoveFn)
    (hmv : ∀ pos tx ty, (mv pos tx ty 0).2 = false)
    (upgrades : List TechUpgrade) (allPlanes : List Plane)
    (occ : GateOccupancy) (p : Plane)
    (hs : p.status = PlaneStatus.HOLD_SHORT) (_hw : p.waypoints = [])
    (hocc : isRunwayOccupied allPlanes (some p.id) = false)
    (hinc : (allPlanes.any fun q =>
        q.status = PlaneStatus.APPROACH ∧ q.position.x > -200) = false) :
    (updatePlanePhysics mv upgrades p allPlanes occ).status
      = PlaneStatus.TAKEOFF := by
  have h2 : holdShortStage allPlanes (p, baseSpeed p.type)
      = (takeoffOf p, 0) := by
    unfold holdShortStage takeoffOf
    rw [if_pos hs, hocc, hinc]
    simp
  simp only [updatePlanePhysics]
  rw [approachStage_of_ne _ _ (by simp [hs]), h2,
    waitingGateStage_of_ne _ _ _ (by simp [takeoffOf])]
  have h4 : speedAdjust (takeoffOf p, 0) = (takeoffOf p, 0) := by
    unfold speedAdjust takeoffOf
    norm_num
  rw [h4]
  have h5 : moveStage mv (takeoffOf p, 0)
      = { takeoffOf p with position := (mv p.position 3000 750 0).1 } := by
    unfold moveStage takeoffOf
    simp only [hmv]
    simp
  rw [h5]
  have h6 : ({ takeoffOf p with
      position := (mv p.position 3000 750 0).1 } : Plane).waypoints ≠ [] := by
    simp [takeoffOf]
  rw [if_neg h6]
  simp [takeoffOf]

/-- C5: an aircraft in `HOLD_SHORT` (which entered with its short fixed
timer of 20 set, see the last conjunct) never transitions to `TAKEOFF`
while the runway is occupied or some approaching aircraft with `x > -200`
conflicts; it transitions to `TAKEOFF` exactly when both are clear, and
otherwise stays in `HOLD_SHORT`. -/
theorem hold_short_release (mv : MoveFn)
    (hmv : ∀ pos tx ty, (mv pos tx ty 0).2 = false)
    (upgrades : List TechUpgrade) (allPlanes : List Plane)
    (occ : GateOccupancy) (p : Plane)
    (hs : p.status = PlaneStatus.HOLD_SHORT) (hw : p.waypoints = []) :
    ((updatePlanePhysics mv upgrades p allPlanes occ).status
        = PlaneStatus.TAKEOFF
      ↔ isRunwayOccupied allPlanes (some p.id) = false
        ∧ (allPlanes.any fun q =>
             q.status = PlaneStatus.APPROACH ∧ q.position.x > -200) = false)
    ∧ ((updatePlanePhysics mv upgrades p allPlanes occ).status
          ≠ PlaneStatus.TAKEOFF →
        (updatePlanePhysics mv upgrades p allPlanes occ).status
          = PlaneStatus.HOLD_SHORT)
    ∧ (∀ q : Plane, q.status = PlaneStatus.TAXI_OUT → q.waypoints = [] →
        (updatePlanePhysics mv upgrades q allPlanes occ).status
          = PlaneStatus.HOLD_SHORT
        ∧ (updatePlanePhysics mv upgrades q allPlanes occ).timer = 20) := by
  have hentry : ∀ q : Plane, q.status = PlaneStatus.TAXI_OUT →
      q.waypoints = [] →
      updatePlanePhysics mv upgrades q allPlanes occ
        = { q with status := PlaneStatus.HOLD_SHORT, timer := 20 } := by
    intro q hq hwq
    simp only [updatePlanePhysics]
    rw [approachStage_of_ne _ _ (by simp [hq]),
      holdShortStage_of_ne _ _ (by simp [hq]),
      waitingGateStage_of_ne _ _ _ (by simp [hq])]
    rw [moveStage_nil _ _ (by exact hwq)]
    simp only [speedAdjust_fst]
    rw [if_pos hwq]
    unfold transitionStage
    rw [hq]
  by_cases hclear : isRunwayOccupied allPlanes (some p.id) = false
      ∧ (allPlanes.any fun q =>
           q.status = PlaneStatus.APPROACH ∧ q.position.x > -200) = false
  · have hrel := holdShort_released mv hmv upgrades allPlanes occ p hs hw
      hclear.1 hclear.2
    refine ⟨⟨fun _ => hclear, fun _ => hrel⟩, fun hne => absurd hrel hne, ?_⟩
    intro q hq hwq
    rw [hentry q hq hwq]
    exact ⟨rfl, rfl⟩
  · have hblk := holdShort_blocked mv upgrades allPlanes occ p hs hw hclear
    rw [hblk]
    refine ⟨⟨fun ht => absurd (hs ▸ ht) (by simp), fun hc => absurd hc hclear⟩,
      fun _ => hs, ?_⟩
    intro q hq hwq
    rw [hentry q hq hwq]
    exact ⟨rfl, rfl⟩

/-- Witness for C5 at a concrete hold-short plane alone on the field. -/
theorem hold_short_release_witness :
    (stubPlane 7 PlaneStatus.HOLD_SHORT).status = PlaneStatus.HOLD_SHORT
    ∧ (stubPlane 7 PlaneStatus.HOLD_SHORT).waypoints = []
    ∧ ((updatePlanePhysics mvStatic INITIAL_UPGRADES
          (stubPlane 7 PlaneStatus.HOLD_SHORT)
          [stubPlane 7 PlaneStatus.HOLD_SHORT] []).status = PlaneStatus.TAKEOFF
        ↔ isRunwayOccupied [stubPlane 7 PlaneStatus.HOLD_SHORT]
            (some (stubPlane 7 PlaneStatus.HOLD_SHORT).id) = false
          ∧ ([stubPlane 7 PlaneStatus.HOLD_SHORT].any fun q =>
               q.status = PlaneStatus.APPROACH ∧ q.position.x > -200)
            = false) := by
  refine ⟨rfl, rfl, ?_⟩
  exact (hold_short_release mvStatic (fun _ _ _ => rfl) INITIAL_UPGRADES
    [stubPlane 7 PlaneStatus.HOLD_SHORT] []
    (stubPlane 7 PlaneStatus.HOLD_SHORT) rfl rfl).1

/-! ## C6 — waiting for a gate -/

/-- The plane produced when a waiting aircraft claims gate `g` whose map
node is `node`. -/
def taxiInOf (p : Plane) (g : String) (node : Node) : Plane :=
  { p with
    targetGateId := some g,
    status := PlaneStatus.TAXI_IN,
    waypoints := [⟨node.x, 850, 180⟩, ⟨node.x, node.y, 180⟩] }

theorem moveStage_waypoints_two (mv : MoveFn) (u : Plane × ℚ)
    (a b : Position) (h : u.1.waypoints = [a, b]) :
    (moveStage mv u).waypoints = [a, b] ∨ (moveStage mv u).waypoints = [b] := by
  unfold moveStage
  rw [h]
  dsimp only
  cases (mv u.1.position a.x a.y u.2).2 <;> simp [h]

/-- C6: an aircraft in `WAITING_FOR_GATE` stays in `WAITING_FOR_GATE` (and
keeps its empty gate reference) on any tick whose occupancy snapshot has
every unlocked gate claimed; on a tick where `getFreeGate` returns a freed
gate `g`, it is assigned `g`, receives the waypoints leading to `g`'s gate
node, and transitions to `TAXI_IN`. -/
theorem waiting_for_gate_spec (mv : MoveFn) (upgrades : List TechUpgrade)
    (occ : GateOccupancy) (allPlanes : List Plane) (p : Plane)
    (hs : p.status = PlaneStatus.WAITING_FOR_GATE) :
    (getFreeGate occ upgrades = none →
       (updatePlanePhysics mv upgrades p allPlanes occ).status
           = PlaneStatus.WAITING_FOR_GATE
       ∧ (updatePlanePhysics mv upgrades p allPlanes occ).targetGateId
           = p.targetGateId)
    ∧ (∀ g, getFreeGate occ upgrades = some g →
       (updatePlanePhysics mv upgrades p allPlanes occ).status
           = PlaneStatus.TAXI_IN
       ∧ (updatePlanePhysics mv upgrades p allPlanes occ).targetGateId
           = some g
       ∧ ∃ node : Node, MAP_NODES.find? (fun n => n.id = g) = some node
           ∧ node.id = g
           ∧ (updatePlanePhysics mv upgrades p allPlanes
                occ).waypoints.getLast? = some ⟨node.x, node.y, 180⟩) := by
  constructor
  · intro hnone
    have h3 : waitingGateStage occ upgrades (p, baseSpeed p.type) = (p, 0) := by
      unfold waitingGateStage
      rw [if_pos hs, hnone]
    simp only [updatePlanePhysics]
    rw [approachStage_of_ne _ _ (by simp [hs]),
      holdShortStage_of_ne _ _ (by simp [hs]), h3]
    have hst : (moveStage mv (speedAdjust (p, 0))).status = p.status := by
      rw [moveStage_status, speedAdjust_fst]
    have htg : (moveStage mv (speedAdjust (p, 0))).targetGateId
        = p.targetGateId := by
      rw [moveStage_targetGateId, speedAdjust_fst]
    by_cases hnil : (moveStage mv (speedAdjust (p, 0))).waypoints = []
    · rw [if_pos hnil,
        transitionStage_default _ _ _ (Or.inl (hst.trans hs))]
      exact ⟨hst.trans hs, htg⟩
    · rw [if_neg hnil]
      exact ⟨hst.trans hs, htg⟩
  · intro g hfree
    obtain ⟨node, hnode, hid⟩ := getFreeGate_node occ upgrades g hfree
    have h3 : waitingGateStage occ upgrades (p, baseSpeed p.type)
        = (taxiInOf p g node, 0) := by
      unfold waitingGateStage taxiInOf
      rw [if_pos hs, hfree]
      dsimp only
      rw [hnode]
    simp only [updatePlanePhysics]
    rw [approachStage_of_ne _ _ (by simp [hs]),
      holdShortStage_of_ne _ _ (by simp [hs]), h3]
    have hst : (moveStage mv (speedAdjust (taxiInOf p g node, 0))).status
        = PlaneStatus.TAXI_IN := by
      rw [moveStage_status, speedAdjust_fst]
      rfl
    have htg : (moveStage mv
        (speedAdjust (taxiInOf p g node, 0))).targetGateId = some g := by
      rw [moveStage_targetGateId, speedAdjust_fst]
      rfl
    have hwp := moveStage_waypoints_two mv (speedAdjust (taxiInOf p g node, 0))
      ⟨node.x, 850, 180⟩ ⟨node.x, node.y, 180⟩ (by rw [speedAdjust_fst]; rfl)
    have hnil : (moveStage mv
        (speedAdjust (taxiInOf p g node, 0))).waypoints ≠ [] := by
      rcases hwp with h | h <;> simp [h]
    rw [if_neg hnil]
    refine ⟨hst, htg, node, hnode, hid, ?_⟩
    rcases hwp with h | h <;> rw [h] <;> rfl

/-- Witness for C6: with three base gates all claimed the waiting plane
stays; the same theorem applied with `gate_3` free assigns it. -/
theorem waiting_for_gate_witness :
    (stubPlane 5 PlaneStatus.WAITING_FOR_GATE).status
      = PlaneStatus.WAITING_FOR_GATE
    ∧ getFreeGate [("gate_1", 1), ("gate_2", 2), ("gate_3", 3)]
        INITIAL_UPGRADES = none
    ∧ (updatePlanePhysics mvStatic INITIAL_UPGRADES
        (stubPlane 5 PlaneStatus.WAITING_FOR_GATE) []
        [("gate_1", 1), ("gate_2", 2), ("gate_3", 3)]).status
      = PlaneStatus.WAITING_FOR_GATE
    ∧ getFreeGate [("gate_1", 1), ("gate_2", 2)] INITIAL_UPGRADES
        = some "gate_3"
    ∧ (updatePlanePhysics mvStatic INITIAL_UPGRADES
        (stubPlane 5 PlaneStatus.WAITING_FOR_GATE) []
        [("gate_1", 1), ("gate_2", 2)]).targetGateId = some "gate_3" := by
  have hstay := (waiting_for_gate_spec mvStatic INITIAL_UPGRADES
    [("gate_1", 1), ("gate_2", 2), ("gate_3", 3)] []
    (stubPlane 5 PlaneStatus.WAITING_FOR_GATE) rfl).1 (by decide)
  have hclaim := (waiting_for_gate_spec mvStatic INITIAL_UPGRADES
    [("gate_1", 1), ("gate_2", 2)] []
    (stubPlane 5 PlaneStatus.WAITING_FOR_GATE) rfl).2 "gate_3" (by decide)
  exact ⟨rfl, by decide, hstay.1, by decide, hclaim.2.1⟩

/-! ## C8 — departed aircraft are dropped at commit -/

/-- C8: after the tick's physics pass commits, the active plane list
contains no aircraft with status `DEPARTED`; a processed aircraft whose
status became `DEPARTED` in this tick is dropped from the committed list,
and every other processed aircraft is kept. -/
theorem departed_removed (mv : MoveFn) (upgrades : List TechUpgrade)
    (planes newPlanes : List Plane) (occ0 : GateOccupancy) (econ : Economy)
    (schedule : List ScheduledFlight) (logs : List String) :
    (∀ q ∈ (physicsPass mv upgrades planes newPlanes occ0 econ schedule
        logs).planes, q.status ≠ PlaneStatus.DEPARTED)
    ∧ (∀ q ∈ ((planes ++ newPlanes).foldl
          (planeStep mv upgrades (planes ++ newPlanes))
          ⟨[], occ0, econ, schedule, logs⟩).planes,
        (q.status = PlaneStatus.DEPARTED →
          q ∉ (physicsPass mv upgrades planes newPlanes occ0 econ schedule
            logs).planes)
        ∧ (q.status ≠ PlaneStatus.DEPARTED →
          q ∈ (physicsPass mv upgrades planes newPlanes occ0 econ schedule
            logs).planes)) := by
  have hpp : (physicsPass mv upgrades planes newPlanes occ0 econ schedule
      logs).planes
      = ((planes ++ newPlanes).foldl
          (planeStep mv upgrades (planes ++ newPlanes))
          ⟨[], occ0, econ, schedule, logs⟩).planes.filter
          (fun p => p.status ≠ PlaneStatus.DEPARTED) := rfl
  constructor
  · intro q hq
    rw [hpp] at hq
    have := List.of_mem_filter hq
    simpa using this
  · intro q hq
    constructor
    · intro hdep hmem
      rw [hpp] at hmem
      have := List.of_mem_filter hmem
      simp [hdep] at this
    · intro hnd
      rw [hpp]
      exact List.mem_filter.mpr ⟨hq, by simpa using hnd⟩

/-- Witness for C8: a single `TAKEOFF` plane with no waypoints departs and
is removed from the committed list, which ends the tick empty. -/
theorem departed_removed_witness :
    (physicsPass mvStatic INITIAL_UPGRADES
        [stubPlane 8 PlaneStatus.TAKEOFF] [] [] INITIAL_ECONOMY [] []).planes
      = []
    ∧ ∀ q ∈ (physicsPass mvStatic INITIAL_UPGRADES
        [stubPlane 8 PlaneStatus.TAKEOFF] [] [] INITIAL_ECONOMY [] []).planes,
        q.status ≠ PlaneStatus.DEPARTED := by
  refine ⟨by decide, ?_⟩
  exact (departed_removed mvStatic INITIAL_UPGRADES
    [stubPlane 8 PlaneStatus.TAKEOFF] [] [] INITIAL_ECONOMY [] []).1

/-! ## C1 — gate-occupancy exclusivity -/

theorem approachStage_tg (all : List Plane) (p : Plane) :
    (approachStage all p).targetGateId = p.targetGateId := by
  unfold approachStage
  dsimp only
  split_ifs <;> rfl

theorem holdShortStage_tg (all : List Plane) (u : Plane × ℚ) :
    (holdShortStage all u).1.targetGateId = u.1.targetGateId := by
  unfold holdShortStage
  dsimp only
  split_ifs <;> rfl

theorem waitingGateStage_tg (occ : GateOccupancy) (upg : List TechUpgrade)
    (u : Plane × ℚ) :
    (waitingGateStage occ upg u).1.targetGateId = u.1.targetGateId
    ∨ ∃ g, (waitingGateStage occ upg u).1.targetGateId = some g
        ∧ getFreeGate occ upg = some g := by
  unfold waitingGateStage
  split_ifs with h
  · dsimp only
    split
    · rename_i g heq
      split
      · right; exact ⟨g, rfl, heq⟩
      · right; exact ⟨g, rfl, heq⟩
    · left; rfl
  · left; rfl

theorem transitionStage_tg (occ : GateOccupancy) (upg : List TechUpgrade)
    (u : Plane) :
    (transitionStage occ upg u).targetGateId = u.targetGateId
    ∨ (transitionStage occ upg u).targetGateId = none
    ∨ ∃ g, (transitionStage occ upg u).targetGateId = some g
        ∧ getFreeGate occ upg = some g := by
  unfold transitionStage
  cases hstat : u.status <;> dsimp only
  case APPROACH => left; rfl
  case LANDING => left; rfl
  case TAXI_IN =>
    cases htg : u.targetGateId <;> dsimp only
    case none =>
      cases hf : getFreeGate occ upg <;> dsimp only
      case none => left; rfl
      case some g =>
        cases hn : MAP_NODES.find? (fun n => n.id = g) <;> dsimp only
        case none => right; right; exact ⟨g, rfl, rfl⟩
        case some node => right; right; exact ⟨g, rfl, rfl⟩
    case some g =>
      split_ifs
      · left; rfl
      · left; exact htg
  case PARKED =>
    split_ifs
    · left; rfl
    · right; left; rfl
  case TAXI_OUT => left; rfl
  case TAKEOFF => left; rfl
  case GO_AROUND => left; rfl
  case WAITING_FOR_GATE => left; rfl
  case HOLD_SHORT => left; rfl
  case DEPARTED => left; rfl
  case DIVERTED => left; rfl

/-- The only ways one physics step can change a plane's gate reference:
keep it, clear it (pushback from the gate), or claim the current
`getFreeGate` result. -/
theorem updatePlanePhysics_tg (mv : MoveFn) (upg : List TechUpgrade)
    (p : Plane) (all : List Plane) (occ : GateOccupancy) :
    (updatePlanePhysics mv upg p all occ).targetGateId = p.targetGateId
    ∨ (updatePlanePhysics mv upg p all occ).targetGateId = none
    ∨ ∃ g, (updatePlanePhysics mv upg p all occ).targetGateId = some g
        ∧ getFreeGate occ upg = some g := by
  have h12 : (holdShortStage all
      (approachStage all p, baseSpeed p.type)).1.targetGateId
      = p.targetGateId := by
    rw [holdShortStage_tg, approachStage_tg]
  have h3 := waitingGateStage_tg occ upg
    (holdShortStage all (approachStage all p, baseSpeed p.type))
  have h4 : (moveStage mv (speedAdjust (waitingGateStage occ upg
      (holdShortStage all (approachStage all p,
        baseSpeed p.type))))).targetGateId
      = (waitingGateStage occ upg (holdShortStage all (approachStage all p,
          baseSpeed p.type))).1.targetGateId := by
    rw [moveStage_targetGateId, speedAdjust_fst]
  have hu : updatePlanePhysics mv upg p all occ
      = (if (moveStage mv (speedAdjust (waitingGateStage occ upg
            (holdShortStage all (approachStage all p,
              baseSpeed p.type))))).waypoints = []
         then transitionStage occ upg (moveStage mv (speedAdjust
            (waitingGateStage occ upg (holdShortStage all
              (approachStage all p, baseSpeed p.type)))))
         else moveStage mv (speedAdjust (waitingGateStage occ upg
            (holdShortStage all (approachStage all p,
              baseSpeed p.type))))) := rfl
  rw [hu]
  split_ifs with hnil
  · have h5 := transitionStage_tg occ upg (moveStage mv (speedAdjust
      (waitingGateStage occ upg (holdShortStage all
        (approachStage all p, baseSpeed p.type)))))
    rcases h5 with h5 | h5 | ⟨g, h5, hfree⟩
    · rw [h5, h4]
      rcases h3 with h3 | ⟨g, h3, hfree⟩
      · rw [h3, h12]
        left; rfl
      · rw [h3]
        right; right; exact ⟨g, rfl, hfree⟩
    · right; left; exact h5
    · right; right; exact ⟨g, h5, hfree⟩
  · rw [h4]
    rcases h3 with h3 | ⟨g, h3, hfree⟩
    · rw [h3, h12]
      left; rfl
    · rw [h3]
      right; right; exact ⟨g, rfl, hfree⟩

theorem occGet_occSet (occ : GateOccupancy) (g h : String) (pid : ℕ) :
    occGet (occSet occ g pid) h
      = if g = h then some pid else occGet occ h := by
  unfold occGet occSet
  by_cases hgh : g = h
  · rw [List.find?_cons_of_pos _ (by simpa using hgh), if_pos hgh]
    rfl
  · rw [List.find?_cons_of_neg _ (by simpa using hgh), if_neg hgh]

theorem occGet_mono (occ : GateOccupancy) (g h : String) (pid : ℕ)
    (hne : occGet occ h ≠ none) : occGet (occSet occ g pid) h ≠ none := by
  rw [occGet_occSet]
  split_ifs
  · simp
  · exact hne

/-- `a` references no gate, or a gate different from `b`'s: no double
claim between the two. -/
abbrev DisjClaim (a b : Plane) : Prop :=
  a.targetGateId = none ∨ a.targetGateId ≠ b.targetGateId

/-- Every gate referenced by a plane of `l` is marked in `occ`. -/
def Covered (occ : GateOccupancy) (l : List Plane) : Prop :=
  ∀ p ∈ l, ∀ g, p.targetGateId = some g → occGet occ g ≠ none

theorem DisjClaim.elim2 {a b : Plane} (h : DisjClaim a b) {g : String}
    (ha : a.targetGateId = some g) (hb : b.targetGateId = some g) : False := by
  rcases h with h | h
  · rw [h] at ha
    cases ha
  · exact h (ha.trans hb.symm)

theorem planeStep_planes (mv : MoveFn) (upg : List TechUpgrade)
    (ctx : List Plane) (acc : TickAcc) (p : Plane) :
    (planeStep mv upg ctx acc p).planes
      = acc.planes ++ [updatePlanePhysics mv upg p ctx acc.occupancy] := rfl

theorem planeStep_occ_mono (mv : MoveFn) (upg : List TechUpgrade)
    (ctx : List Plane) (acc : TickAcc) (p : Plane) (h : String)
    (hne : occGet acc.occupancy h ≠ none) :
    occGet (planeStep mv upg ctx acc p).occupancy h ≠ none := by
  unfold planeStep
  dsimp only
  cases htg : (updatePlanePhysics mv upg p ctx acc.occupancy).targetGateId
  · exact hne
  · split_ifs
    · exact occGet_mono _ _ _ _ hne
    · exact hne

theorem planeStep_occ_claimed (mv : MoveFn) (upg : List TechUpgrade)
    (ctx : List Plane) (acc : TickAcc) (p : Plane) (g : String)
    (htg : (updatePlanePhysics mv upg p ctx
        acc.occupancy).targetGateId = some g) :
    occGet (planeStep mv upg ctx acc p).occupancy g ≠ none
    ∨ p.targetGateId = some g := by
  unfold planeStep
  dsimp only
  rw [htg]
  split_ifs with hne
  · left
    rw [occGet_occSet, if_pos rfl]
    simp
  · right
    rw [not_not] at hne
    exact hne.symm

theorem planeStep_fold_inv (mv : MoveFn) (upg : List TechUpgrade)
    (ctx : List Plane) :
    ∀ (rest : List Plane) (acc : TickAcc),
      Covered acc.occupancy acc.planes →
      Covered acc.occupancy rest →
      List.Pairwise DisjClaim acc.planes →
      (∀ a ∈ acc.planes, ∀ b ∈ rest, DisjClaim a b) →
      List.Pairwise DisjClaim rest →
      List.Pairwise DisjClaim (rest.foldl (planeStep mv upg ctx) acc).planes
      ∧ Covered (rest.foldl (planeStep mv upg ctx) acc).occupancy
          (rest.foldl (planeStep mv upg ctx) acc).planes := by
  intro rest
  induction rest with
  | nil =>
      intro acc hCA hCR hPA hX hPR
      exact ⟨hPA, hCA⟩
  | cons p rest ih =>
      intro acc hCA hCR hPA hX hPR
      rw [List.foldl_cons]
      have hPRrest := (List.pairwise_cons.mp hPR).2
      have hPRhead := (List.pairwise_cons.mp hPR).1
      have hdisj := updatePlanePhysics_tg mv upg p ctx acc.occupancy
      apply ih
      -- Covered occ' (acc.planes ++ [p'])
      · intro q hq g hg
        rw [planeStep_planes] at hq
        rcases List.mem_append.mp hq with hq | hq
        · exact planeStep_occ_mono mv upg ctx acc p g (hCA q hq g hg)
        · have hq' : q = updatePlanePhysics mv upg p ctx acc.occupancy := by
            simpa using hq
          subst hq'
          rcases planeStep_occ_claimed mv upg ctx acc p g hg with hc | hc
          · exact hc
          · exact planeStep_occ_mono mv upg ctx acc p g
              (hCR p (List.mem_cons_self p rest) g hc)
      -- Covered occ' rest
      · intro q hq g hg
        exact planeStep_occ_mono mv upg ctx acc p g
          (hCR q (List.mem_cons_of_mem p hq) g hg)
      -- Pairwise (acc.planes ++ [p'])
      · rw [planeStep_planes]
        rw [List.pairwise_append]
        refine ⟨hPA, List.pairwise_singleton _ _, ?_⟩
        intro a ha b hb
        have hb' : b = updatePlanePhysics mv upg p ctx acc.occupancy := by
          simpa using hb
        subst hb'
        rcases hdisj with hd | hd | ⟨g, hd, hfree⟩
        · rcases hX a ha p (List.mem_cons_self p rest) with hx | hx
          · exact Or.inl hx
          · right
            rw [hd]
            exact hx
        · cases hatg : a.targetGateId
          · exact Or.inl hatg
          · right
            rw [hd, hatg]
            simp
        · cases hatg : a.targetGateId
          · exact Or.inl hatg
          · rename_i h
            right
            rw [hd, hatg]
            intro hcon
            cases hcon
            exact hCA a ha g hatg (getFreeGate_free _ _ _ hfree)
      -- cross: processed × remaining
      · intro a ha b hb
        rw [planeStep_planes] at ha
        rcases List.mem_append.mp ha with ha | ha
        · exact hX a ha b (List.mem_cons_of_mem p hb)
        · have ha' : a = updatePlanePhysics mv upg p ctx acc.occupancy := by
            simpa using ha
          subst ha'
          rcases hdisj with hd | hd | ⟨g, hd, hfree⟩
          · rcases hPRhead b hb with hx | hx
            · left
              rw [hd]
              exact hx
            · right
              rw [hd]
              exact hx
          · exact Or.inl hd
          · right
            rw [hd]
            intro hcon
            exact hCR b (List.mem_cons_of_mem p hb) g hcon.symm
              (getFreeGate_free _ _ _ hfree)
      -- Pairwise rest
      · exact hPRrest

theorem rebuildStep_mono (occ : GateOccupancy) (p : Plane) (g : String)
    (hne : occGet occ g ≠ none) : occGet (rebuildStep occ p) g ≠ none := by
  unfold rebuildStep
  cases p.targetGateId
  · exact hne
  · split_ifs
    · exact occGet_mono _ _ _ _ hne
    · exact hne

theorem rebuildStep_claims (occ : GateOccupancy) (p : Plane) (g : String)
    (htg : p.targetGateId = some g)
    (hst : p.status = PlaneStatus.TAXI_IN ∨ p.status = PlaneStatus.PARKED ∨
      p.status = PlaneStatus.WAITING_FOR_GATE) :
    occGet (rebuildStep occ p) g ≠ none := by
  unfold rebuildStep
  rw [htg]
  dsimp only
  rw [if_pos hst]
  rw [occGet_occSet, if_pos rfl]
  simp

theorem rebuild_covers_aux :
    ∀ (l : List Plane) (init : GateOccupancy) (g : String),
      (occGet init g ≠ none
        ∨ ∃ p ∈ l, p.targetGateId = some g
            ∧ (p.status = PlaneStatus.TAXI_IN ∨ p.status = PlaneStatus.PARKED
               ∨ p.status = PlaneStatus.WAITING_FOR_GATE)) →
      occGet (l.foldl rebuildStep init) g ≠ none := by
  intro l
  induction l with
  | nil =>
      intro init g h
      rcases h with h | ⟨p, hp, _⟩
      · exact h
      · cases hp
  | cons q l ih =>
      intro init g h
      rw [List.foldl_cons]
      rcases h with h | ⟨p, hp, htg, hst⟩
      · exact ih _ g (Or.inl (rebuildStep_mono init q g h))
      · rcases List.mem_cons.mp hp with rfl | hp
        · exact ih _ g (Or.inl (rebuildStep_claims init p g htg hst))
        · exact ih _ g (Or.inr ⟨p, hp, htg, hst⟩)

theorem pairwise_of_claimless (l : List Plane)
    (h : ∀ p ∈ l, p.targetGateId = none) : List.Pairwise DisjClaim l := by
  induction l with
  | nil => exact List.Pairwise.nil
  | cons q l ih =>
      refine List.Pairwise.cons ?_ (ih fun p hp => h p (List.mem_cons_of_mem q hp))
      intro b hb
      exact Or.inl (h q (List.mem_cons_self q l))

/-- Concrete two-aircraft contention: gates 1 and 2 held by parked
aircraft, planes 3 and 4 both at the `TAXI_IN` decision point with no
assigned gate, exactly `gate_3` free. -/
def scenarioPlanes : List Plane :=
  [ { stubPlane 1 PlaneStatus.PARKED with
      position := ⟨800, 950, 180⟩, targetGateId := some "gate_1",
      timer := 100 },
    { stubPlane 2 PlaneStatus.PARKED with
      position := ⟨1000, 950, 180⟩, targetGateId := some "gate_2",
      timer := 100 },
    { stubPlane 3 PlaneStatus.TAXI_IN with position := ⟨1300, 850, 180⟩ },
    { stubPlane 4 PlaneStatus.TAXI_IN with position := ⟨1300, 850, 180⟩ } ]

/-- C1: at the end of every tick no two distinct active aircraft reference
the same gate id — the physics pass over `planes ++ newPlanes`, run
against the rebuilt occupancy snapshot with mid-tick claims recorded,
preserves pairwise gate-reference disjointness (given the per-tick entry
facts: gates are referenced only by `TAXI_IN`/`PARKED` aircraft, freshly
spawned aircraft reference none, and the references are pairwise
disjoint).  In particular, in the concrete two-aircraft scenario with
exactly one free gate, the first in array order acquires `gate_3` and
stays `TAXI_IN` while the second becomes `WAITING_FOR_GATE`. -/
theorem gate_occupancy_exclusive :
    (∀ (mv : MoveFn) (upg : List TechUpgrade) (planes newPlanes : List Plane)
        (econ : Economy) (sched : List ScheduledFlight) (logs : List String),
      (∀ p ∈ planes, p.targetGateId = none
          ∨ p.status = PlaneStatus.TAXI_IN ∨ p.status = PlaneStatus.PARKED) →
      (∀ p ∈ newPlanes, p.targetGateId = none) →
      List.Pairwise DisjClaim planes →
      List.Pairwise DisjClaim
        (physicsPass mv upg planes newPlanes (rebuildOccupancy planes)
          econ sched logs).planes)
    ∧ (physicsPass mvStatic INITIAL_UPGRADES scenarioPlanes []
        (rebuildOccupancy scenarioPlanes) INITIAL_ECONOMY [] []).planes.map
          Plane.targetGateId
        = [some "gate_1", some "gate_2", some "gate_3", none]
    ∧ (physicsPass mvStatic INITIAL_UPGRADES scenarioPlanes []
        (rebuildOccupancy scenarioPlanes) INITIAL_ECONOMY [] []).planes.map
          Plane.status
        = [PlaneStatus.PARKED, PlaneStatus.PARKED, PlaneStatus.TAXI_IN,
           PlaneStatus.WAITING_FOR_GATE] := by
  refine ⟨?_, by decide, by decide⟩
  intro mv upg planes newPlanes econ sched logs h1 h2 h3
  have hfold := planeStep_fold_inv mv upg (planes ++ newPlanes)
    (planes ++ newPlanes) ⟨[], rebuildOccupancy planes, econ, sched, logs⟩
    (by intro q hq; cases hq)
    (by
      intro q hq g hg
      rcases List.mem_append.mp hq with hq | hq
      · rcases h1 q hq with hn | hst
        · rw [hn] at hg
          cases hg
        · exact rebuild_covers_aux planes [] g
            (Or.inr ⟨q, hq, hg, by tauto⟩)
      · rw [h2 q hq] at hg
        cases hg)
    List.Pairwise.nil
    (by intro a ha; cases ha)
    (by
      rw [List.pairwise_append]
      refine ⟨h3, pairwise_of_claimless newPlanes h2, ?_⟩
      intro a ha b hb
      cases hatg : a.targetGateId
      · exact Or.inl hatg
      · right
        rw [hatg, h2 b hb]
        simp)
  have hsub : (physicsPass mv upg planes newPlanes (rebuildOccupancy planes)
      econ sched logs).planes.Sublist
      (((planes ++ newPlanes).foldl
          (planeStep mv upg (planes ++ newPlanes))
          ⟨[], rebuildOccupancy planes, econ, sched, logs⟩).planes) :=
    List.filter_sublist _
  exact hfold.1.sublist hsub

/-- Witness for C1: the scenario planes satisfy the three entry
hypotheses, and the theorem yields pairwise disjoint gate references for
the committed plane list. -/
theorem gate_occupancy_exclusive_witness :
    (∀ p ∈ scenarioPlanes, p.targetGateId = none
        ∨ p.status = PlaneStatus.TAXI_IN ∨ p.status = PlaneStatus.PARKED)
    ∧ List.Pairwise DisjClaim scenarioPlanes
    ∧ List.Pairwise DisjClaim
        (physicsPass mvStatic INITIAL_UPGRADES scenarioPlanes []
          (rebuildOccupancy scenarioPlanes) INITIAL_ECONOMY [] []).planes := by
  refine ⟨by decide, by decide, ?_⟩
  exact gate_occupancy_exclusive.1 mvStatic INITIAL_UPGRADES scenarioPlanes []
    INITIAL_ECONOMY [] [] (by decide) (by decide) (by decide)

/-! ## C2 — scheduler capacity invariant

The chain below shows the source's sweep (sorted events, ends before
starts on ties, running counter) bounds the half-open coverage count at
every instant, and that the acceptance test therefore preserves the
whole-batch bound. -/

/-- Sum of the event types (`+1` start, `−1` end) of an event list. -/
def sumTypes (l : List Ev) : ℤ := (l.map Prod.snd).sum

theorem sumTypes_cons (e : Ev) (l : List Ev) :
    sumTypes (e :: l) = e.2 + sumTypes l := by
  simp [sumTypes]

theorem le_sweepFold : ∀ (l : List Ev) (c m : ℤ), m ≤ sweepFold l c m := by
  intro l
  induction l with
  | nil => intro c m; exact le_refl m
  | cons e l ih =>
      intro c m
      exact le_trans (le_max_left m (c + e.2)) (ih (c + e.2) (max m (c + e.2)))

theorem take_le_sweepFold : ∀ (l : List Ev) (c m : ℤ), c ≤ m →
    ∀ n : ℕ, c + sumTypes (l.take n) ≤ sweepFold l c m := by
  intro l
  induction l with
  | nil =>
      intro c m hcm n
      simpa [sumTypes, sweepFold] using hcm
  | cons e l ih =>
      intro c m hcm n
      cases n with
      | zero =>
          have h1 : m ≤ sweepFold (e :: l) c m := le_sweepFold _ _ _
          simpa [sumTypes] using le_trans hcm h1
      | succ n =>
          have h2 := ih (c + e.2) (max m (c + e.2)) (le_max_right _ _) n
          have h3 : sweepFold (e :: l) c m
              = sweepFold l (c + e.2) (max m (c + e.2)) := rfl
          rw [h3, List.take_succ_cons, sumTypes_cons]
          linarith

theorem evLE_trans : ∀ a b c : Ev, evLE a b = true → evLE b c = true →
    evLE a c = true := by
  intro a b c
  unfold evLE
  simp only [decide_eq_true_eq]
  omega

theorem evLE_total : ∀ a b : Ev, (evLE a b || evLE b a) = true := by
  intro a b
  unfold evLE
  simp only [Bool.or_eq_true, decide_eq_true_eq]
  omega

theorem filter_prefix_of_sorted (τ : ℤ) :
    ∀ l : List Ev, l.Pairwise (fun a b => evLE a b = true) →
      ∃ n : ℕ, l.filter (fun e => decide (e.1 ≤ τ)) = l.take n := by
  intro l
  induction l with
  | nil => exact fun _ => ⟨0, rfl⟩
  | cons e l ih =>
      intro hp
      have hhead := (List.pairwise_cons.mp hp).1
      have hrest := (List.pairwise_cons.mp hp).2
      by_cases he : e.1 ≤ τ
      · obtain ⟨n, hn⟩ := ih hrest
        refine ⟨n + 1, ?_⟩
        rw [List.filter_cons_of_pos (by simpa using he), hn]
        rfl
      · refine ⟨0, ?_⟩
        rw [List.filter_cons_of_neg (by simpa using he), List.take_zero]
        rw [List.filter_eq_nil_iff]
        intro b hb
        have hele := hhead b hb
        unfold evLE at hele
        simp only [decide_eq_true_eq] at hele
        simp only [decide_eq_true_eq]
        intro hbτ
        rcases hele with h | ⟨h, _⟩
        · exact he (le_of_lt (lt_of_lt_of_le h hbτ))
        · exact he (h ▸ hbτ)

theorem countCover_cons (iv : Iv) (l : List Iv) (τ : ℤ) :
    (countCover (iv :: l) τ : ℤ)
      = (countCover l τ : ℤ)
        + (if iv.start ≤ τ ∧ τ < iv.stop then 1 else 0) := by
  unfold countCover
  rw [List.countP_cons]
  by_cases h : iv.start ≤ τ ∧ τ < iv.stop
  · rw [if_pos h, decide_eq_true h]
    simp
  · rw [if_neg h, decide_eq_false h]
    simp

theorem filter_events_sum (τ : ℤ) :
    ∀ l : List Iv, (∀ iv ∈ l, iv.start ≤ iv.stop) →
      sumTypes ((ivEvents l).filter (fun e => decide (e.1 ≤ τ)))
        = (countCover l τ : ℤ) := by
  intro l
  induction l with
  | nil => intro _; rfl
  | cons iv l ih =>
      intro h
      have hwf := h iv (List.mem_cons_self iv l)
      have hrest := ih fun x hx => h x (List.mem_cons_of_mem _ hx)
      have hev : ivEvents (iv :: l)
          = (iv.start, 1) :: (iv.stop, -1) :: ivEvents l := rfl
      rw [hev, countCover_cons]
      by_cases h1 : iv.start ≤ τ
      · by_cases h2 : iv.stop ≤ τ
        · rw [List.filter_cons_of_pos (by simpa using h1),
            List.filter_cons_of_pos (by simpa using h2),
            sumTypes_cons, sumTypes_cons, hrest,
            if_neg (fun hc => absurd h2 (not_le.mpr hc.2))]
          ring
        · rw [List.filter_cons_of_pos (by simpa using h1),
            List.filter_cons_of_neg (by simpa using h2),
            sumTypes_cons, hrest, if_pos ⟨h1, not_le.mp h2⟩]
          ring
      · have h2 : ¬iv.stop ≤ τ := fun hc => h1 (le_trans hwf hc)
        rw [List.filter_cons_of_neg (by simpa using h1),
          List.filter_cons_of_neg (by simpa using h2), hrest,
          if_neg (fun hc => h1 hc.1)]
        ring

theorem countCover_le_maxConcurrency (l : List Iv)
    (hwf : ∀ iv ∈ l, iv.start ≤ iv.stop) (τ : ℤ) :
    (countCover l τ : ℤ) ≤ maxConcurrency l := by
  have hperm : ((ivEvents l).mergeSort evLE).Perm (ivEvents l) :=
    List.mergeSort_perm _ _
  have hsorted := @List.sorted_mergeSort Ev evLE evLE_trans evLE_total
    (ivEvents l)
  obtain ⟨n, hn⟩ := filter_prefix_of_sorted τ _ hsorted
  have hsum : sumTypes (((ivEvents l).mergeSort evLE).filter
        (fun e => decide (e.1 ≤ τ)))
      = sumTypes ((ivEvents l).filter (fun e => decide (e.1 ≤ τ))) := by
    unfold sumTypes
    exact List.Perm.sum_eq (List.Perm.map Prod.snd
      (List.Perm.filter _ hperm))
  have hle := take_le_sweepFold ((ivEvents l).mergeSort evLE) 0 0 le_rfl n
  rw [← hn, hsum, filter_events_sum τ l hwf] at hle
  unfold maxConcurrency
  linarith

theorem countCover_append (l₁ l₂ : List Iv) (τ : ℤ) :
    countCover (l₁ ++ l₂) τ = countCover l₁ τ + countCover l₂ τ := by
  unfold countCover
  exact List.countP_append _ _ _

/-- Accepting a candidate after the sweep over the overlapping committed
intervals preserves the global instantaneous bound. -/
theorem accept_keeps_bound (S : List Iv) (c : Iv) (G : ℤ)
    (hcwf : c.start ≤ c.stop)
    (hwf : ∀ iv ∈ S, iv.start ≤ iv.stop)
    (hS : ∀ τ : ℤ, (countCover S τ : ℤ) ≤ G)
    (hacc : maxConcurrency ((S ++ [c]).filter
        fun iv => iv.start < c.stop ∧ iv.stop > c.start) ≤ G) :
    ∀ τ : ℤ, (countCover (S ++ [c]) τ : ℤ) ≤ G := by
  intro τ
  by_cases hcov : c.start ≤ τ ∧ τ < c.stop
  · have hwf' : ∀ iv ∈ (S ++ [c]).filter
        (fun iv => iv.start < c.stop ∧ iv.stop > c.start),
        iv.start ≤ iv.stop := by
      intro iv hiv
      rcases List.mem_append.mp (List.mem_of_mem_filter hiv) with h | h
      · exact hwf iv h
      · rw [List.mem_singleton.mp h]
        exact hcwf
    have hkey := countCover_le_maxConcurrency _ hwf' τ
    have heq : countCover ((S ++ [c]).filter
        (fun iv => iv.start < c.stop ∧ iv.stop > c.start)) τ
        = countCover (S ++ [c]) τ := by
      unfold countCover
      rw [List.countP_filter]
      apply List.countP_congr
      intro iv _
      by_cases hiv : iv.start ≤ τ ∧ τ < iv.stop
      · have hovl : iv.start < c.stop ∧ iv.stop > c.start :=
          ⟨lt_of_le_of_lt hiv.1 hcov.2, lt_of_le_of_lt hcov.1 hiv.2⟩
        simp [hiv, hovl]
      · simp [hiv]
    rw [← heq]
    exact le_trans hkey hacc
  · rw [countCover_append]
    have hone : countCover [c] τ = 0 := by
      unfold countCover
      simp [List.countP_cons, hcov]
    push_cast [hone]
    simpa using hS τ

/-- The batch-generation invariant: the committed intervals are exactly
the pending intervals plus the windows of the accepted flights, all have
the fixed 450-tick width, and the instantaneous bound holds everywhere. -/
def GenInv (pending : List Iv) (G : ℤ) (st : GenState) : Prop :=
  st.committedIntervals = pending ++ st.futureFlights.map flightWindow
  ∧ (∀ iv ∈ st.committedIntervals,
      iv.stop = iv.start + GATE_OCCUPANCY_WINDOW)
  ∧ ∀ τ : ℤ, (countCover st.committedIntervals τ : ℤ) ≤ G

theorem attemptOnce_cases (ctx : SchedCtx) (st : GenState) :
    (attemptOnce ctx st).1 = { st with ri := st.ri + 1 }
    ∨ ∃ (cand : Iv) (f : ScheduledFlight) (ri' : ℕ),
        (attemptOnce ctx st).1
            = { committedIntervals := st.committedIntervals ++ [cand],
                futureFlights := st.futureFlights ++ [f],
                ri := ri' }
        ∧ cand.stop = cand.start + GATE_OCCUPANCY_WINDOW
        ∧ maxConcurrency ((st.committedIntervals ++ [cand]).filter
            (fun iv => iv.start < cand.stop ∧ iv.stop > cand.start))
            ≤ ctx.totalGates
        ∧ flightWindow f = cand := by
  unfold attemptOnce
  dsimp only
  split_ifs with hacc
  · right
    exact ⟨_, _, _, rfl, rfl, hacc, rfl⟩
  · left
    rfl

theorem attemptOnce_inv (ctx : SchedCtx) (pending : List Iv) (st : GenState)
    (h : GenInv pending ctx.totalGates st) :
    GenInv pending ctx.totalGates (attemptOnce ctx st).1 := by
  obtain ⟨hflights, hwid, hbound⟩ := h
  rcases attemptOnce_cases ctx st with heq | ⟨cand, f, ri', heq, hcw, hacc, hfw⟩
  · rw [heq]
    exact ⟨hflights, hwid, hbound⟩
  · rw [heq]
    refine ⟨?_, ?_, ?_⟩
    · show st.committedIntervals ++ [cand]
        = pending ++ (st.futureFlights ++ [f]).map flightWindow
      rw [hflights, List.map_append, ← List.append_assoc]
      simp [hfw]
    · intro iv hiv
      rcases List.mem_append.mp hiv with hm | hm
      · exact hwid iv hm
      · rw [List.mem_singleton.mp hm]
        exact hcw
    · have hcwf : cand.start ≤ cand.stop := by
        rw [hcw]
        unfold GATE_OCCUPANCY_WINDOW
        omega
      have hswf : ∀ iv ∈ st.committedIntervals, iv.start ≤ iv.stop := by
        intro iv hm
        rw [hwid iv hm]
        unfold GATE_OCCUPANCY_WINDOW
        omega
      exact accept_keeps_bound st.committedIntervals cand ctx.totalGates
        hcwf hswf hbound hacc

theorem attemptLoop_inv (ctx : SchedCtx) (pending : List Iv) :
    ∀ (fuel : ℕ) (st : GenState), GenInv pending ctx.totalGates st →
      GenInv pending ctx.totalGates (attemptLoop ctx fuel st) := by
  intro fuel
  induction fuel with
  | zero => intro st h; exact h
  | succ fuel ih =>
      intro st h
      unfold attemptLoop
      dsimp only
      split_ifs
      · exact attemptOnce_inv ctx pending st h
      · exact ih _ (attemptOnce_inv ctx pending st h)

theorem genLoop_inv (ctx : SchedCtx) (pending : List Iv) :
    ∀ (n : ℕ) (st : GenState), GenInv pending ctx.totalGates st →
      GenInv pending ctx.totalGates (genLoop ctx n st) := by
  intro n
  induction n with
  | zero => intro st h; exact h
  | succ n ih =>
      intro st h
      exact ih _ (attemptLoop_inv ctx pending 15 st h)

/-- C2: for every batch produced by `generateSchedule`, taking the
committed gate-occupancy intervals of the still-pending scheduled flights
together with the `[t, t+450)` window of each accepted new flight, at no
instant does the number of simultaneously live intervals (half-open
semantics: ends do not overlap coinciding starts, as in the sweep's tie
rule) exceed the total gate count — 3, or 4 once the terminal expansion
is unlocked — provided the pending intervals already satisfy the bound. -/
theorem scheduler_capacity (currentTime effectiveDemand : ℤ)
    (upgrades : List TechUpgrade) (schedule : List ScheduledFlight)
    (rnd : ℕ → ℚ)
    (hpending : ∀ τ : ℤ,
      (countCover (pendingIntervals schedule currentTime) τ : ℤ)
        ≤ (if hasTerminalExp upgrades then 4 else 3)) :
    ∀ τ : ℤ,
      (countCover (pendingIntervals schedule currentTime
          ++ (generateSchedule currentTime effectiveDemand upgrades schedule
                rnd).map flightWindow) τ : ℤ)
        ≤ (if hasTerminalExp upgrades then 4 else 3) := by
  intro τ
  have hinit : GenInv (pendingIntervals schedule currentTime)
      (if hasTerminalExp upgrades then 4 else 3)
      ⟨pendingIntervals schedule currentTime, [], 0⟩ := by
    refine ⟨by simp, ?_, hpending⟩
    intro iv hiv
    unfold pendingIntervals at hiv
    obtain ⟨f, _, hf⟩ := List.mem_map.mp hiv
    rw [← hf]
  have hfin := genLoop_inv
    ⟨currentTime, if hasTerminalExp upgrades then 4 else 3,
      effectiveDemand, rnd⟩
    (pendingIntervals schedule currentTime)
    (max 1 ⌈(effectiveDemand : ℚ) / 12⌉).toNat
    ⟨pendingIntervals schedule currentTime, [], 0⟩ hinit
  obtain ⟨hflights, _, hbound⟩ := hfin
  have hout : generateSchedule currentTime effectiveDemand upgrades schedule
      rnd
      = ((genLoop
          ⟨currentTime, if hasTerminalExp upgrades then 4 else 3,
            effectiveDemand, rnd⟩
          (max 1 ⌈(effectiveDemand : ℚ) / 12⌉).toNat
          ⟨pendingIntervals schedule currentTime, [],
            0⟩).futureFlights).mergeSort
        (fun a b => decide (a.scheduledTime ≤ b.scheduledTime)) := rfl
  have hperm : (generateSchedule currentTime effectiveDemand upgrades
      schedule rnd).Perm
      ((genLoop
          ⟨currentTime, if hasTerminalExp upgrades then 4 else 3,
            effectiveDemand, rnd⟩
          (max 1 ⌈(effectiveDemand : ℚ) / 12⌉).toNat
          ⟨pendingIntervals schedule currentTime, [],
            0⟩).futureFlights) := by
    rw [hout]
    exact List.mergeSort_perm _ _
  have hcount : countCover (pendingIntervals schedule currentTime
      ++ (generateSchedule currentTime effectiveDemand upgrades schedule
            rnd).map flightWindow) τ
      = countCover (pendingIntervals schedule currentTime
          ++ ((genLoop
              ⟨currentTime, if hasTerminalExp upgrades then 4 else 3,
                effectiveDemand, rnd⟩
              (max 1 ⌈(effectiveDemand : ℚ) / 12⌉).toNat
              ⟨pendingIntervals schedule currentTime, [],
                0⟩).futureFlights).map flightWindow) τ := by
    rw [countCover_append, countCover_append]
    unfold countCover
    rw [List.Perm.countP_eq _ (List.Perm.map flightWindow hperm)]
  rw [hcount, ← hflights]
  exact hbound τ

/-- Witness for C2 with an empty pending schedule and three base gates. -/
theorem scheduler_capacity_witness :
    (∀ τ : ℤ, (countCover (pendingIntervals [] 0) τ : ℤ)
        ≤ (if hasTerminalExp INITIAL_UPGRADES then 4 else 3))
    ∧ ∀ τ : ℤ,
        (countCover (pendingIntervals [] 0
            ++ (generateSchedule 0 0 INITIAL_UPGRADES []
                  (fun _ => 0)).map flightWindow) τ : ℤ)
          ≤ (if hasTerminalExp INITIAL_UPGRADES then 4 else 3) := by
  have hp : ∀ τ : ℤ, (countCover (pendingIntervals [] 0) τ : ℤ)
      ≤ (if hasTerminalExp INITIAL_UPGRADES then 4 else 3) := by
    intro τ
    rw [show countCover (pendingIntervals [] 0) τ = 0 from rfl]
    split_ifs <;> norm_num
  exact ⟨hp, scheduler_capacity 0 0 INITIAL_UPGRADES [] (fun _ => 0) hp⟩

end SkyHarbour
